import Mathlib

/-!
Verification of the APWCR firmware core (robot/apwcr_firmware/src).

This file gives a shallow embedding of the firmware's comms and actuator
kernel and proves the specification claims about it:

* a JSON document model and parser (models the external ArduinoJson
  `deserializeJson` dependency, which is not part of this repository;
  standard JSON, with the document-capacity limit idealised away),
* `protocol::decodeCommandLine` / `protocol::encodeTelemetryLine`
  (comms/Protocol.cpp),
* the `SerialLink` line framer, watchdog and line handler
  (comms/SerialLink.cpp),
* the `ServoActuator` ramp/settle/auto-detach state machine
  (actuators/ServoActuator.cpp),
* the supervisor-loop command-application and watchdog fragments
  (main.cpp).

C `float` arithmetic is embedded as exact rational arithmetic (`ℚ`);
`uint32_t` timestamps are embedded as `Nat` values below `2 ^ 32` with
explicit wraparound subtraction where the source subtracts.
-/

namespace APWCR

attribute [local semireducible] Rat.sub Rat.add Rat.mul Rat.inv

/-! ### JSON document model (models ArduinoJson values) -/

/-- A JSON value as stored by an ArduinoJson document.  Numbers are
modelled exactly as rationals. -/
inductive JVal where
  | null : JVal
  | bool : Bool → JVal
  | num  : ℚ → JVal
  | str  : String → JVal
  | arr  : List JVal → JVal
  | obj  : List (String × JVal) → JVal
  deriving Repr

mutual

/-- Decidable equality for `JVal` (hand-rolled: the inductive is nested). -/
def JVal.beq : JVal → JVal → Bool
  | .null, .null => true
  | .bool a, .bool b => a = b
  | .num a, .num b => a = b
  | .str a, .str b => a = b
  | .arr a, .arr b => JVal.beqList a b
  | .obj a, .obj b => JVal.beqMembers a b
  | _, _ => false

/-- Element-wise equality of JSON arrays. -/
def JVal.beqList : List JVal → List JVal → Bool
  | [], [] => true
  | a :: as', b :: bs' => JVal.beq a b && JVal.beqList as' bs'
  | _, _ => false

/-- Member-wise equality of JSON objects (order-sensitive, like the
underlying member list). -/
def JVal.beqMembers : List (String × JVal) → List (String × JVal) → Bool
  | [], [] => true
  | (k, v) :: as', (k', v') :: bs' => k = k' && JVal.beq v v' && JVal.beqMembers as' bs'
  | _, _ => false

end

mutual

theorem JVal.beq_iff : ∀ a b : JVal, JVal.beq a b = true ↔ a = b
  | .null, .null => by simp [JVal.beq]
  | .bool a, .bool b => by simp [JVal.beq]
  | .num a, .num b => by simp [JVal.beq]
  | .str a, .str b => by simp [JVal.beq]
  | .arr a, .arr b => by
      simp only [JVal.beq, JVal.arr.injEq]
      exact JVal.beqList_iff a b
  | .obj a, .obj b => by
      simp only [JVal.beq, JVal.obj.injEq]
      exact JVal.beqMembers_iff a b
  | .null, .bool _ | .null, .num _ | .null, .str _ | .null, .arr _ | .null, .obj _
  | .bool _, .null | .bool _, .num _ | .bool _, .str _ | .bool _, .arr _ | .bool _, .obj _
  | .num _, .null | .num _, .bool _ | .num _, .str _ | .num _, .arr _ | .num _, .obj _
  | .str _, .null | .str _, .bool _ | .str _, .num _ | .str _, .arr _ | .str _, .obj _
  | .arr _, .null | .arr _, .bool _ | .arr _, .num _ | .arr _, .str _ | .arr _, .obj _
  | .obj _, .null | .obj _, .bool _ | .obj _, .num _ | .obj _, .str _ | .obj _, .arr _ => by
      simp [JVal.beq]

theorem JVal.beqList_iff : ∀ a b : List JVal, JVal.beqList a b = true ↔ a = b
  | [], [] => by simp [JVal.beqList]
  | a :: as', b :: bs' => by
      simp only [JVal.beqList, Bool.and_eq_true, List.cons.injEq]
      exact and_congr (JVal.beq_iff a b) (JVal.beqList_iff as' bs')
  | [], _ :: _ => by simp [JVal.beqList]
  | _ :: _, [] => by simp [JVal.beqList]

theorem JVal.beqMembers_iff :
    ∀ a b : List (String × JVal), JVal.beqMembers a b = true ↔ a = b
  | [], [] => by simp [JVal.beqMembers]
  | (k, v) :: as', (k', v') :: bs' => by
      simp only [JVal.beqMembers, Bool.and_eq_true, List.cons.injEq, Prod.mk.injEq,
        decide_eq_true_eq]
      constructor
      · rintro ⟨⟨hk, hv⟩, ht⟩
        exact ⟨⟨hk, (JVal.beq_iff v v').mp hv⟩, (JVal.beqMembers_iff as' bs').mp ht⟩
      · rintro ⟨⟨hk, hv⟩, ht⟩
        exact ⟨⟨hk, (JVal.beq_iff v v').mpr hv⟩, (JVal.beqMembers_iff as' bs').mpr ht⟩
  | [], _ :: _ => by simp [JVal.beqMembers]
  | _ :: _, [] => by simp [JVal.beqMembers]

end

instance : DecidableEq JVal := fun a b =>
  decidable_of_iff (JVal.beq a b = true) (JVal.beq_iff a b)

/-! ### JSON text parsing (models `deserializeJson`) -/

/-- The opening-brace character of a JSON object. -/
def lbrace : Char := '\x7b'

/-- The closing-brace character of a JSON object. -/
def rbrace : Char := '\x7d'

/-- JSON whitespace. -/
def isWs (c : Char) : Bool := c = ' ' || c = '\t' || c = '\n' || c = '\r'

/-- Drop leading JSON whitespace. -/
def skipWs : List Char → List Char
  | [] => []
  | c :: cs => if isWs c then skipWs cs else c :: cs

/-- ASCII decimal digit test (character codes 48–57). -/
def isDigit (c : Char) : Bool := 48 ≤ c.toNat && c.toNat ≤ 57

/-- Value of an ASCII decimal digit (code minus 48). -/
def digitVal (c : Char) : Nat := c.toNat - 48

/-- Split off a maximal run of leading decimal digits. -/
def takeDigits : List Char → List Char × List Char
  | [] => ([], [])
  | c :: cs =>
    if isDigit c then
      let (ds, rest) := takeDigits cs
      (c :: ds, rest)
    else ([], c :: cs)

/-- Numeric value of a digit run. -/
def digitsToNat (ds : List Char) : Nat := ds.foldl (fun a c => a * 10 + digitVal c) 0

/-- Parse the optional fraction part `.ddd` of a JSON number; returns the
fraction digits and the rest of the input. -/
def parseFrac : List Char → Option (List Char × List Char)
  | '.' :: rest =>
    let (ds, r) := takeDigits rest
    if ds.isEmpty then none else some (ds, r)
  | l => some (([] : List Char), l)

/-- Parse the optional exponent part `e±ddd` of a JSON number. -/
def parseExp : List Char → Option (Int × List Char)
  | [] => some (0, [])
  | c :: rest =>
    if c = 'e' || c = 'E' then
      match rest with
      | '+' :: r2 =>
        let (ds, r3) := takeDigits r2
        if ds.isEmpty then none else some ((digitsToNat ds : Int), r3)
      | '-' :: r2 =>
        let (ds, r3) := takeDigits r2
        if ds.isEmpty then none else some (-(digitsToNat ds : Int), r3)
      | r2 =>
        let (ds, r3) := takeDigits r2
        if ds.isEmpty then none else some ((digitsToNat ds : Int), r3)
    else some (0, c :: rest)

/-- Parse a JSON number into an exact rational. -/
def parseNumber (l : List Char) : Option (ℚ × List Char) :=
  let (neg, l1) : Bool × List Char :=
    match l with
    | '-' :: rest => (true, rest)
    | _ => (false, l)
  let (ints, l2) := takeDigits l1
  if ints.isEmpty then none
  else do
    let (fr, l3) ← parseFrac l2
    let (ex, l4) ← parseExp l3
    let mag : Int := (digitsToNat ints * 10 ^ fr.length + digitsToNat fr : Nat)
    let mant : Int := if neg then -mag else mag
    let q : ℚ := mkRat (mant * (10 : Int) ^ ex.toNat) (10 ^ fr.length * 10 ^ (-ex).toNat)
    some (q, l4)

/-- Hexadecimal digit value (by character code: 0–9, a–f, A–F). -/
def hexVal (c : Char) : Option Nat :=
  let n := c.toNat
  if 48 ≤ n && n ≤ 57 then some (n - 48)
  else if 97 ≤ n && n ≤ 102 then some (n - 87)
  else if 65 ≤ n && n ≤ 70 then some (n - 55)
  else none

/-- Translate a single-character JSON escape. -/
def escChar (c : Char) : Option Char :=
  if c = '"' || c = '\\' || c = '/' then some c
  else if c = 'n' then some '\n'
  else if c = 't' then some '\t'
  else if c = 'r' then some '\r'
  else if c = 'b' then some (Char.ofNat 8)
  else if c = 'f' then some (Char.ofNat 12)
  else none

/-- Parse the body of a JSON string after the opening quote, through the
closing quote. -/
def parseStringBody : Nat → List Char → Option (List Char × List Char)
  | 0, _ => none
  | _, [] => none
  | fuel + 1, c :: cs =>
    if c = '"' then some ([], cs)
    else if c = '\\' then
      match cs with
      | [] => none
      | 'u' :: a :: b :: c3 :: d :: cs3 => do
        let ha ← hexVal a
        let hb ← hexVal b
        let hc ← hexVal c3
        let hd ← hexVal d
        let (rest, r) ← parseStringBody fuel cs3
        some (Char.ofNat (((ha * 16 + hb) * 16 + hc) * 16 + hd) :: rest, r)
      | e :: cs2 => do
        let ec ← escChar e
        let (rest, r) ← parseStringBody fuel cs2
        some (ec :: rest, r)
    else do
      let (rest, r) ← parseStringBody fuel cs
      some (c :: rest, r)

/-- The sub-grammar a recursive-descent step is parsing: a value, an
object body (after the opening brace), the member list of an object, an
array body (after the opening bracket), or the element list of an
array. -/
inductive PTask where
  | val
  | objBody
  | members
  | arrBody
  | elems
  deriving Repr

/-- Fuel-bounded recursive-descent JSON parsing.  The fuel argument is
only a termination bound; `jparse` supplies enough for any input. -/
def parseF : Nat → PTask → List Char → Option (JVal × List Char)
  | 0, _, _ => none
  | fuel + 1, PTask.val, l =>
    match skipWs l with
    | [] => none
    | 't' :: 'r' :: 'u' :: 'e' :: r => some (JVal.bool true, r)
    | 'f' :: 'a' :: 'l' :: 's' :: 'e' :: r => some (JVal.bool false, r)
    | 'n' :: 'u' :: 'l' :: 'l' :: r => some (JVal.null, r)
    | '"' :: cs => do
      let (s, r) ← parseStringBody (cs.length + 1) cs
      some (JVal.str (String.mk s), r)
    | c :: cs =>
      if c = lbrace then parseF fuel PTask.objBody (skipWs cs)
      else if c = '[' then parseF fuel PTask.arrBody (skipWs cs)
      else do
        let (q, r) ← parseNumber (c :: cs)
        some (JVal.num q, r)
  | fuel + 1, PTask.objBody, l =>
    match l with
    | [] => none
    | c :: cs =>
      if c = rbrace then some (JVal.obj [], cs)
      else parseF fuel PTask.members (c :: cs)
  | fuel + 1, PTask.members, l =>
    match l with
    | '"' :: cs => do
      let (k, r1) ← parseStringBody (cs.length + 1) cs
      match skipWs r1 with
      | ':' :: r2 => do
        let (v, r3) ← parseF fuel PTask.val r2
        match skipWs r3 with
        | ',' :: r4 => do
          let (tailObj, r5) ← parseF fuel PTask.members (skipWs r4)
          match tailObj with
          | JVal.obj ms => some (JVal.obj ((String.mk k, v) :: ms), r5)
          | _ => none
        | c :: r4 =>
          if c = rbrace then some (JVal.obj [(String.mk k, v)], r4) else none
        | [] => none
      | _ => none
    | _ => none
  | fuel + 1, PTask.arrBody, l =>
    match l with
    | [] => none
    | ']' :: cs => some (JVal.arr [], cs)
    | l' => parseF fuel PTask.elems l'
  | fuel + 1, PTask.elems, l => do
    let (v, r1) ← parseF fuel PTask.val l
    match skipWs r1 with
    | ',' :: r2 => do
      let (tailArr, r3) ← parseF fuel PTask.elems (skipWs r2)
      match tailArr with
      | JVal.arr vs => some (JVal.arr (v :: vs), r3)
      | _ => none
    | ']' :: r2 => some (JVal.arr [v], r2)
    | _ => none

/-- Parse a complete JSON document.  Models `deserializeJson` from the
ArduinoJson library (an external dependency of this repository): standard
JSON text yields the document, anything else an error.  The static
document capacity is idealised as unbounded. -/
def jparse (s : String) : Option JVal :=
  match parseF (3 * s.length + 8) PTask.val s.data with
  | some (v, rest) => if (skipWs rest).isEmpty then some v else none
  | none => none

/-! ### ArduinoJson accessor semantics -/

/-- Member lookup in an object member list: first match, like
`JsonObject::operator[]`. -/
def jlookup (ms : List (String × JVal)) (k : String) : Option JVal :=
  match ms.find? (fun p => p.1 = k) with
  | some p => some p.2
  | none => none

/-- Lookup inside a value that may or may not be an object
(`doc[k]` after an `as<JsonObject>()` conversion that may have yielded
the null object). -/
def jget : Option JVal → String → Option JVal
  | some (JVal.obj ms), k => jlookup ms k
  | _, _ => none

/-- Models `JsonVariant::as<JsonObject>()`: the member list when the value
is an object, otherwise the null object. -/
def asObj : Option JVal → Option (List (String × JVal))
  | some (JVal.obj ms) => some ms
  | _ => none

/-- Models the implicit `const char*` conversion: the string when the
value is a string, otherwise a null pointer. -/
def asCStr : Option JVal → Option String
  | some (JVal.str s) => some s
  | _ => none

/-- Models `JsonVariant::as<uint32_t>()` on the values exercised here:
a non-negative number is truncated into `uint32_t` range; anything else
converts to 0. -/
def asUInt32 : Option JVal → Nat
  | some (JVal.num q) => if q < 0 then 0 else q.floor.toNat % 2 ^ 32
  | _ => 0

/-- Models `variant | default` for a `float` default: the number when the
value is numeric, otherwise the default. -/
def asFloatOr : Option JVal → ℚ → ℚ
  | some (JVal.num q), _ => q
  | _, d => d

/-- Models `JsonVariant::isNull()`: true for a missing member or an
explicit `null`. -/
def jIsNull : Option JVal → Bool
  | some JVal.null => true
  | none => true
  | _ => false

/-- Models `JsonObject::containsKey`. -/
def containsKey (ms : List (String × JVal)) (k : String) : Bool :=
  (jlookup ms k).isSome

/-! ### Message structures (comms/Messages.h) -/

/-- `DriveCommand` from Messages.h. -/
structure DriveCommand where
  linear_ftps : ℚ := 0
  angular_dps : ℚ := 0
  deriving DecidableEq, Repr

/-- `MechMotorMode` from Messages.h. -/
inductive MechMotorMode where
  | UNKNOWN
  | POS_DEG
  | DUTY
  deriving DecidableEq, Repr

/-- `MechMotorCommand` from Messages.h. -/
structure MechMotorCommand where
  mode : MechMotorMode := MechMotorMode.UNKNOWN
  value : ℚ := 0
  present : Bool := false
  deriving DecidableEq, Repr

/-- `MechanismCommand` from Messages.h. -/
structure MechanismCommand where
  motor_RHS : MechMotorCommand := {}
  motor_LHS : MechMotorCommand := {}
  servo_LID_deg : ℚ := 0
  servo_LID_present : Bool := false
  servo_SWEEP_deg : ℚ := 0
  servo_SWEEP_present : Bool := false
  deriving DecidableEq, Repr

/-- `CommandFrame` from Messages.h (`uint32_t` fields as `Nat`). -/
structure CommandFrame where
  seq : Nat := 0
  host_time_ms : Nat := 0
  drive : DriveCommand := {}
  mech : MechanismCommand := {}
  valid : Bool := false
  deriving DecidableEq, Repr

/-- Telemetry `float` fields can hold a finite value or a non-finite one
(`NAN`/infinity); `isfinite` discriminates. -/
inductive FloatV where
  | fin (q : ℚ)
  | nonfinite
  deriving DecidableEq, Repr

/-- Models `isfinite` on a telemetry field. -/
def FloatV.isfinite : FloatV → Bool
  | .fin _ => true
  | .nonfinite => false

/-- `WheelState` from Messages.h. -/
structure WheelState where
  left_rpm : FloatV := FloatV.nonfinite
  right_rpm : FloatV := FloatV.nonfinite
  deriving DecidableEq, Repr

/-- `MechanismState` from Messages.h. -/
structure MechanismState where
  servo_LID_deg : FloatV := FloatV.nonfinite
  servo_SWEEP_deg : FloatV := FloatV.nonfinite
  motor_RHS_deg : FloatV := FloatV.nonfinite
  motor_LHS_deg : FloatV := FloatV.nonfinite
  deriving DecidableEq, Repr

/-- `UltrasonicState` from Messages.h. -/
structure UltrasonicState where
  distance_in : FloatV := FloatV.nonfinite
  valid : Bool := false
  deriving DecidableEq, Repr

/-- `TelemetryFrame` from Messages.h. -/
structure TelemetryFrame where
  arduino_time_ms : Nat := 0
  ack_seq : Nat := 0
  wheel : WheelState := {}
  mech : MechanismState := {}
  ultrasonic : UltrasonicState := {}
  note : Option String := none
  deriving DecidableEq, Repr

/-! ### Command decoding (protocol::decodeCommandLine, Protocol.cpp) -/

/-- `parseMode` from Protocol.cpp: mode string to enum; a null string or
an unrecognized tag is `UNKNOWN`. -/
def parseMode : Option String → MechMotorMode
  | none => MechMotorMode.UNKNOWN
  | some s =>
    if s = "POS_DEG" then MechMotorMode.POS_DEG
    else if s = "DUTY" then MechMotorMode.DUTY
    else MechMotorMode.UNKNOWN

/-- Decode one mechanism motor entry (the `motor_RHS`/`motor_LHS` blocks
of `decodeCommandLine`). -/
def decodeMotor (mech : List (String × JVal)) (key : String) : MechMotorCommand :=
  if ¬ jIsNull (jlookup mech key) then
    let mode := parseMode (asCStr (jget (jlookup mech key) "mode"))
    if mode ≠ MechMotorMode.UNKNOWN then
      { mode := mode, value := asFloatOr (jget (jlookup mech key) "value") 0, present := true }
    else {}
  else {}

/-- `protocol::decodeCommandLine` from Protocol.cpp.  Returns the decoded
frame on success (the C version returns `true` and fills `out_cmd`;
failure leaves the caller's previous command unused). -/
def decodeCommandLine (line : String) : Option CommandFrame :=
  match jparse line with
  | none => none
  | some doc =>
    match asObj (some doc) with
    | none => none
    | some obj =>
      match asCStr (jlookup obj "type") with
      | none => none
      | some ty =>
        if ty ≠ "cmd" then none
        else if ¬ containsKey obj "seq" then none
        else if ¬ containsKey obj "host_time_ms" then none
        else if ¬ containsKey obj "drive" then none
        else if ¬ containsKey obj "mech" then none
        else
          match asObj (jlookup obj "drive") with
          | none => none
          | some drv =>
            match asObj (jlookup obj "mech") with
            | none => none
            | some mech =>
              some
                { seq := asUInt32 (jlookup obj "seq")
                  host_time_ms := asUInt32 (jlookup obj "host_time_ms")
                  drive :=
                    { linear_ftps := asFloatOr (jlookup drv "linear") 0
                      angular_dps := asFloatOr (jlookup drv "angular") 0 }
                  mech :=
                    { motor_RHS := decodeMotor mech "motor_RHS"
                      motor_LHS := decodeMotor mech "motor_LHS"
                      servo_LID_deg :=
                        if ¬ jIsNull (jlookup mech "servo_LID_deg") then
                          asFloatOr (jlookup mech "servo_LID_deg") 0
                        else 0
                      servo_LID_present := ¬ jIsNull (jlookup mech "servo_LID_deg")
                      servo_SWEEP_deg :=
                        if ¬ jIsNull (jlookup mech "servo_SWEEP_deg") then
                          asFloatOr (jlookup mech "servo_SWEEP_deg") 0
                        else 0
                      servo_SWEEP_present := ¬ jIsNull (jlookup mech "servo_SWEEP_deg") }
                  valid := true }

/-! ### Telemetry encoding (protocol::encodeTelemetryLine, Protocol.cpp) -/

/-- A finite field is emitted as its number, a non-finite one as an
explicit `null` (the `isfinite` branches of `encodeTelemetryLine`). -/
def numOrNull : FloatV → JVal
  | .fin q => JVal.num q
  | .nonfinite => JVal.null

/-- The JSON document built by `protocol::encodeTelemetryLine`
(Protocol.cpp); `serializeJson` then prints exactly this document followed
by a newline. -/
def encodeTelemetryDoc (t : TelemetryFrame) : JVal :=
  JVal.obj
    [ ("type", JVal.str "telemetry"),
      ("arduino_time_ms", JVal.num (t.arduino_time_ms : ℚ)),
      ("ack_seq", JVal.num (t.ack_seq : ℚ)),
      ("wheel", JVal.obj
        [ ("left_rpm", numOrNull t.wheel.left_rpm),
          ("right_rpm", numOrNull t.wheel.right_rpm) ]),
      ("mech", JVal.obj
        [ ("servo_LID_deg", numOrNull t.mech.servo_LID_deg),
          ("servo_SWEEP_deg", numOrNull t.mech.servo_SWEEP_deg),
          ("motor_RHS_deg", numOrNull t.mech.motor_RHS_deg),
          ("motor_LHS_deg", numOrNull t.mech.motor_LHS_deg) ]),
      ("ultrasonic", JVal.obj
        [ ("valid", JVal.bool t.ultrasonic.valid),
          ("distance_in",
            if t.ultrasonic.valid then numOrNull t.ultrasonic.distance_in
            else JVal.null) ]),
      ("note",
        match t.note with
        | some s => JVal.str s
        | none => JVal.null) ]

/-! ### uint32 arithmetic and parameters (include/Params.h) -/

/-- The `uint32_t` modulus. -/
def U32 : Nat := 2 ^ 32

/-- Wraparound `uint32_t` subtraction `a - b` (operands below `2 ^ 32`). -/
def usub32 (a b : Nat) : Nat := (a + U32 - b % U32) % U32

/-- `SERIAL_LINE_BUFFER_BYTES` from Params.h (`RX_BUF_SIZE` in
SerialLink.h). -/
def RX_BUF_SIZE : Nat := 2048

/-- `COMMAND_TIMEOUT_MS` from Params.h. -/
def COMMAND_TIMEOUT_MS : Nat := 6000

/-- `SERVO_MIN_DEG` from Params.h. -/
def SERVO_MIN_DEG : ℚ := 0

/-- `SERVO_MAX_DEG` from Params.h. -/
def SERVO_MAX_DEG : ℚ := 100

/-- `LID_CLOSED_DEG` from Params.h. -/
def LID_CLOSED_DEG : ℚ := 0

/-- `SWEEP_STOW_DEG` from Params.h. -/
def SWEEP_STOW_DEG : ℚ := 15

/-- `LID_SERVO_RAMP_DPS` from Params.h. -/
def LID_SERVO_RAMP_DPS : ℚ := 25

/-- `SWEEP_SERVO_RAMP_DPS` from Params.h. -/
def SWEEP_SERVO_RAMP_DPS : ℚ := 10

/-- `SERVO_DEADBAND_DEG` from Params.h. -/
def SERVO_DEADBAND_DEG : ℚ := 2

/-- `LID_SERVO_SETTLE_MS` from Params.h. -/
def LID_SERVO_SETTLE_MS : Nat := 1000

/-- `SWEEP_SERVO_SETTLE_MS` from Params.h. -/
def SWEEP_SERVO_SETTLE_MS : Nat := 1000

/-! ### SerialLink (comms/SerialLink.cpp) -/

/-- The state owned by one `SerialLink` instance, as left by `begin()`
(all counters zero, empty buffer, no command).  `delivered` is a history
variable, not present in the source: it records, in order, every line
handed to `protocol::decodeCommandLine` by `handleLine_`, so that
theorems can speak about what the decoder was given. -/
structure SerialLinkState where
  rx_buf : List Char := []
  dropping : Bool := false
  has_cmd : Bool := false
  latest_cmd : CommandFrame := {}
  last_cmd_ms : Nat := 0
  ack_seq : Nat := 0
  lines : Nat := 0
  ok : Nat := 0
  fail : Nat := 0
  ovf : Nat := 0
  max_len_seen : Nat := 0
  delivered : List (List Char) := []
  deriving DecidableEq, Repr

/-- `SerialLink::handleLine_` (SerialLink.cpp lines 136–165): an empty
buffer returns immediately; otherwise the buffered line is decoded, a
success replaces the stored command, receipt time and ack sequence and
bumps `_ok`, a failure bumps `_fail` and changes nothing else. -/
def handleLine (now_ms : Nat) (s : SerialLinkState) : SerialLinkState :=
  if s.rx_buf = [] then s
  else
    let s' := { s with delivered := s.delivered ++ [s.rx_buf] }
    match decodeCommandLine (String.mk s.rx_buf) with
    | some cmd =>
      if cmd.valid then
        { s' with latest_cmd := cmd, has_cmd := true, last_cmd_ms := now_ms,
                  ack_seq := cmd.seq, ok := s.ok + 1 }
      else { s' with fail := s.fail + 1 }
    | none => { s' with fail := s.fail + 1 }

/-- The per-byte body of `SerialLink::tick` (SerialLink.cpp lines
71–134): `\r` is ignored; in dropping mode everything up to the next
newline is discarded; a newline completes a frame and hands it to
`handleLine_`; other bytes are appended while there is room, and a full
buffer trips the overflow counter and enters dropping mode. -/
def processByte (now_ms : Nat) (s : SerialLinkState) (c : Char) : SerialLinkState :=
  if c = '\r' then s
  else if s.dropping then
    if c = '\n' then { s with dropping := false, rx_buf := [] }
    else s
  else if c = '\n' then
    let s1 := { s with lines := s.lines + 1,
                       max_len_seen := max s.max_len_seen s.rx_buf.length }
    let s2 := handleLine now_ms s1
    { s2 with rx_buf := [] }
  else if s.rx_buf.length + 1 < RX_BUF_SIZE then
    { s with rx_buf := s.rx_buf ++ [c] }
  else
    { s with ovf := s.ovf + 1, dropping := true, rx_buf := [] }

/-- `SerialLink::tick` draining a given list of available bytes. -/
def linkTick (now_ms : Nat) (bytes : List Char) (s : SerialLinkState) : SerialLinkState :=
  bytes.foldl (processByte now_ms) s

/-- `SerialLink::commandTimedOut` (SerialLink.cpp lines 49–52):
`_last_cmd_ms == 0` means "never received"; otherwise wraparound
`now - last` is compared strictly against the timeout. -/
def commandTimedOut (s : SerialLinkState) (now_ms : Nat) : Bool :=
  if s.last_cmd_ms = 0 then true
  else decide (usub32 now_ms s.last_cmd_ms > COMMAND_TIMEOUT_MS)

/-! ### ServoActuator (actuators/ServoActuator.cpp) -/

/-- The constructor parameters of a `ServoActuator` (after the
constructor's own sanitisation, see `mkServoConfig`). -/
structure ServoConfig where
  min_deg : ℚ
  max_deg : ℚ
  ramp_dps : ℚ
  deadband_deg : ℚ
  settle_ms : Nat
  auto_detach_on_closed : Bool
  closed_deg : ℚ
  deriving DecidableEq, Repr

/-- `ServoActuator::clampDeg_` (ServoActuator.cpp lines 171–175). -/
def clampDeg (cfg : ServoConfig) (deg : ℚ) : ℚ :=
  if deg < cfg.min_deg then cfg.min_deg
  else if deg > cfg.max_deg then cfg.max_deg
  else deg

/-- The `ServoActuator` constructor (ServoActuator.cpp lines 6–17):
negative ramp rate and deadband are clamped to 0 and the closed angle is
clamped into `[min_deg, max_deg]`. -/
def mkServoConfig (min_deg max_deg ramp_dps deadband_deg : ℚ) (settle_ms : Nat)
    (auto_detach_on_closed : Bool) (closed_deg : ℚ) : ServoConfig :=
  let cfg : ServoConfig :=
    { min_deg := min_deg
      max_deg := max_deg
      ramp_dps := if ramp_dps < 0 then 0 else ramp_dps
      deadband_deg := if deadband_deg < 0 then 0 else deadband_deg
      settle_ms := settle_ms
      auto_detach_on_closed := auto_detach_on_closed
      closed_deg := closed_deg }
  { cfg with closed_deg := clampDeg cfg closed_deg }

/-- `ServoActuator::State` (ServoActuator.h), with its in-class default
member values. -/
structure ServoState where
  target_deg : ℚ := 90
  current_deg : ℚ := 90
  is_attached : Bool := false
  at_target : Bool := true
  last_update_ms : Nat := 0
  at_target_since_ms : Nat := 0
  deriving DecidableEq, Repr

/-- Models `fabsf` from math.h (exact on rationals). -/
def fabs (q : ℚ) : ℚ := if q < 0 then -q else q

/-- `ServoActuator::updateAtTargetFlags_` (ServoActuator.cpp lines
155–169). -/
def updateAtTargetFlags (cfg : ServoConfig) (now_ms : Nat) (s : ServoState) : ServoState :=
  if fabs (s.target_deg - s.current_deg) ≤ cfg.deadband_deg then
    { s with at_target := true,
             at_target_since_ms := if ¬ s.at_target then now_ms else s.at_target_since_ms }
  else
    { s with at_target := false, at_target_since_ms := 0 }

/-- `ServoActuator::attach` (ServoActuator.cpp lines 37–48). -/
def attachServo (now_ms : Nat) (s : ServoState) : ServoState :=
  if s.is_attached then s
  else { s with is_attached := true, last_update_ms := now_ms }

/-- `ServoActuator::begin` (ServoActuator.cpp lines 19–35), starting from
the default-constructed state. -/
def beginServo (cfg : ServoConfig) (now_ms : Nat) (initial_deg : ℚ) : ServoState :=
  let init := clampDeg cfg initial_deg
  let s : ServoState :=
    { target_deg := init, current_deg := init, is_attached := true,
      last_update_ms := now_ms, at_target_since_ms := now_ms }
  updateAtTargetFlags cfg now_ms s

/-- `ServoActuator::setTargetDeg` (ServoActuator.cpp lines 70–100). -/
def setTargetDeg (cfg : ServoConfig) (deg : ℚ) (now_ms : Nat) (s : ServoState) : ServoState :=
  let new_target := clampDeg cfg deg
  if fabs (new_target - s.target_deg) < mkRat 1 1000 then s
  else
    let s1 := { s with target_deg := new_target }
    let s2 := attachServo now_ms s1
    let s3 := { s2 with at_target_since_ms := 0, at_target := false }
    if cfg.ramp_dps ≤ 0 then
      let s4 := { s3 with current_deg := s3.target_deg, last_update_ms := now_ms,
                          at_target_since_ms := now_ms }
      updateAtTargetFlags cfg now_ms s4
    else s3

/-- `ServoActuator::tick` (ServoActuator.cpp lines 102–153). -/
def tickServo (cfg : ServoConfig) (now_ms : Nat) (s : ServoState) : ServoState :=
  if ¬ s.is_attached then s
  else
    let dt_ms := usub32 now_ms s.last_update_ms
    let s0 := { s with last_update_ms := now_ms }
    if dt_ms = 0 then s0
    else if cfg.ramp_dps ≤ 0 then updateAtTargetFlags cfg now_ms s0
    else
      let tgt := s0.target_deg
      let cur := s0.current_deg
      let err := tgt - cur
      let max_step := cfg.ramp_dps * mkRat dt_ms 1000
      let cur1 :=
        if fabs err ≤ mkRat 1 10000 then tgt
        else if err > 0 then (if cur + max_step ≥ tgt then tgt else cur + max_step)
        else (if cur - max_step ≤ tgt then tgt else cur - max_step)
      let s1 := { s0 with current_deg := clampDeg cfg cur1 }
      let s2 := updateAtTargetFlags cfg now_ms s1
      if cfg.auto_detach_on_closed then
        if fabs (s2.target_deg - cfg.closed_deg) ≤ cfg.deadband_deg ∧ s2.at_target
            ∧ s2.at_target_since_ms ≠ 0
            ∧ usub32 now_ms s2.at_target_since_ms ≥ cfg.settle_ms then
          { s2 with is_attached := false }
        else s2
      else s2

/-- Run `tick` over a list of timestamps. -/
def runServo (cfg : ServoConfig) (s : ServoState) (ts : List Nat) : ServoState :=
  ts.foldl (fun st t => tickServo cfg t st) s

/-- The lid servo configuration built in main.cpp lines 36–45. -/
def lidServoConfig : ServoConfig :=
  mkServoConfig SERVO_MIN_DEG SERVO_MAX_DEG LID_SERVO_RAMP_DPS SERVO_DEADBAND_DEG
    LID_SERVO_SETTLE_MS true LID_CLOSED_DEG

/-- The sweep servo configuration built in main.cpp lines 47–56. -/
def sweepServoConfig : ServoConfig :=
  mkServoConfig SERVO_MIN_DEG SERVO_MAX_DEG SWEEP_SERVO_RAMP_DPS SERVO_DEADBAND_DEG
    SWEEP_SERVO_SETTLE_MS true SWEEP_STOW_DEG

/-! ### Supervisor loop fragments (main.cpp) -/

/-- The supervisor-owned mutable state the claims are about:
`g_last_applied_seq`, `g_in_timeout` and the two servo states.
`safe_issues` is a history variable, not in the source: it counts
executions of the safe-command block of main.cpp lines 120–123. -/
structure SupervisorState where
  last_applied_seq : Nat := 0
  in_timeout : Bool := false
  lid : ServoState := {}
  sweep : ServoState := {}
  safe_issues : Nat := 0
  deriving DecidableEq, Repr

/-- The command-application fragment of `loop` (main.cpp lines 100–114):
targets are forwarded only when the stored command's sequence number
differs from `g_last_applied_seq`. -/
def applyCommandStep (now_ms : Nat) (has_cmd : Bool) (cmd : CommandFrame)
    (st : SupervisorState) : SupervisorState :=
  if has_cmd then
    if cmd.seq ≠ st.last_applied_seq then
      { st with
        last_applied_seq := cmd.seq
        lid :=
          if cmd.mech.servo_LID_present then
            setTargetDeg lidServoConfig cmd.mech.servo_LID_deg now_ms st.lid
          else st.lid
        sweep :=
          if cmd.mech.servo_SWEEP_present then
            setTargetDeg sweepServoConfig cmd.mech.servo_SWEEP_deg now_ms st.sweep
          else st.sweep }
    else st
  else st

/-- The watchdog fragment of `loop` (main.cpp lines 119–126): on a
fresh-to-stale transition the safe configuration is commanded (lid to
`LID_CLOSED_DEG`, sweep to `SWEEP_STOW_DEG`) and `g_in_timeout` latches;
while stale nothing further happens; going fresh clears the latch. -/
def watchdogStep (now_ms : Nat) (timed_out : Bool) (st : SupervisorState) : SupervisorState :=
  if timed_out ∧ ¬ st.in_timeout then
    { st with
      in_timeout := true
      lid := setTargetDeg lidServoConfig LID_CLOSED_DEG now_ms st.lid
      sweep := setTargetDeg sweepServoConfig SWEEP_STOW_DEG now_ms st.sweep
      safe_issues := st.safe_issues + 1 }
  else if ¬ timed_out then { st with in_timeout := false }
  else st

/-- The watchdog fragment iterated over consecutive loop iterations,
each with a timestamp and that iteration's `commandTimedOut` value. -/
def watchdogRun (st : SupervisorState) (trace : List (Nat × Bool)) : SupervisorState :=
  trace.foldl (fun s p => watchdogStep p.1 p.2 s) st

/-- Number of fresh-to-stale transitions in a sequence of staleness
values, given the previous latch state. -/
def risingEdges : Bool → List Bool → Nat
  | _, [] => 0
  | prev, b :: rest => (if b ∧ ¬ prev then 1 else 0) + risingEdges b rest

/-- A list of lines as the byte stream that carries them: each line
followed by the `\n` terminator. -/
def joinLines (ls : List (List Char)) : List Char :=
  (ls.map (fun l => l ++ ['\n'])).flatten

/-- The spec's acceptance condition for `decodeCommandLine`, as amended:
the text parses as a JSON object, the discriminator is the string
`"cmd"`, the `seq` and `host_time_ms` members are present (numeric or
not), and the `drive` and `mech` members are JSON objects. -/
def acceptsCommandSpec (line : String) : Bool :=
  match jparse line with
  | some (JVal.obj ms) =>
    (match jlookup ms "type" with
     | some (JVal.str t) => t = "cmd"
     | _ => false) &&
    (jlookup ms "seq").isSome &&
    (jlookup ms "host_time_ms").isSome &&
    (match jlookup ms "drive" with
     | some (JVal.obj _) => true
     | _ => false) &&
    (match jlookup ms "mech" with
     | some (JVal.obj _) => true
     | _ => false)
  | _ => false

/-! ## Helper lemmas -/

/-- A successfully decoded frame always carries `valid = true` (the last
assignment of `decodeCommandLine`). -/
theorem decodeCommandLine_valid (line : String) (cmd : CommandFrame)
    (h : decodeCommandLine line = some cmd) : cmd.valid = true := by
  unfold decodeCommandLine at h
  repeat' split at h
  all_goals try exact Option.noConfusion h
  all_goals injection h with h2
  all_goals exact h2 ▸ rfl

/-- Wraparound subtraction coincides with plain subtraction when the
minuend is in range and at least the subtrahend. -/
theorem usub32_eq_sub (a b : Nat) (hba : b ≤ a) (ha : a < U32) :
    usub32 a b = a - b := by
  simp only [usub32, U32] at *
  omega

/-- `watchdogStep` leaves the latch equal to the staleness input. -/
theorem watchdogStep_in_timeout (now : Nat) (b : Bool) (st : SupervisorState) :
    (watchdogStep now b st).in_timeout = b := by
  unfold watchdogStep
  split_ifs with h1 h2 <;> simp_all

/-- `watchdogStep` bumps the safe-command counter exactly on a
fresh-to-stale transition. -/
theorem watchdogStep_safe_issues (now : Nat) (b : Bool) (st : SupervisorState) :
    (watchdogStep now b st).safe_issues =
      st.safe_issues + (if b ∧ ¬ st.in_timeout then 1 else 0) := by
  unfold watchdogStep
  split_ifs with h1 h2 <;> simp_all

/-- Iterated watchdog steps count exactly the fresh-to-stale
transitions. -/
theorem watchdogRun_safe_issues (trace : List (Nat × Bool)) :
    ∀ st : SupervisorState,
      (watchdogRun st trace).safe_issues =
        st.safe_issues + risingEdges st.in_timeout (trace.map Prod.snd) := by
  induction trace with
  | nil => intro st; simp [watchdogRun, risingEdges]
  | cons p rest ih =>
    intro st
    have hstep : watchdogRun st (p :: rest) = watchdogRun (watchdogStep p.1 p.2 st) rest := rfl
    rw [hstep, ih]
    rw [watchdogStep_safe_issues]
    simp only [List.map_cons, risingEdges, watchdogStep_in_timeout]
    omega

/-! ## Claim theorems -/

/-- C8 (confirmed): decoding the exact line
`\x7b"type":"cmd","seq":5,"host_time_ms":100,"drive":\x7b"linear":0.5,"angular":0\x7d,"mech":\x7b"servo_LID_deg":80\x7d\x7d`
succeeds and yields `seq = 5`, the `servo_LID` target present with value
80, the `servo_SWEEP` target absent, both motor targets absent, and
`valid = true`. -/
theorem C8_end_to_end_decode :
    decodeCommandLine
        "\x7b\"type\":\"cmd\",\"seq\":5,\"host_time_ms\":100,\"drive\":\x7b\"linear\":0.5,\"angular\":0\x7d,\"mech\":\x7b\"servo_LID_deg\":80\x7d\x7d" =
      some
        { seq := 5
          host_time_ms := 100
          drive := { linear_ftps := mkRat 1 2, angular_dps := 0 }
          mech :=
            { motor_RHS := { mode := MechMotorMode.UNKNOWN, value := 0, present := false }
              motor_LHS := { mode := MechMotorMode.UNKNOWN, value := 0, present := false }
              servo_LID_deg := 80
              servo_LID_present := true
              servo_SWEEP_deg := 0
              servo_SWEEP_present := false }
          valid := true } := by
  decide

/-- C10 (confirmed): the supervisor's command-application fragment
forwards a stored command's servo targets exactly when its sequence
number differs from `g_last_applied_seq` (initially 0); a command whose
sequence number equals the last applied one — including a first-ever
command with sequence number 0 — leaves both servo states (hence both
targets) unchanged, whatever its target fields hold. -/
theorem C10_sequence_gated_application (now : Nat) (has_cmd : Bool) (cmd : CommandFrame)
    (st : SupervisorState) :
    (cmd.seq = st.last_applied_seq → applyCommandStep now has_cmd cmd st = st) ∧
    (has_cmd = true → cmd.seq ≠ st.last_applied_seq →
      (applyCommandStep now has_cmd cmd st).last_applied_seq = cmd.seq ∧
      (applyCommandStep now has_cmd cmd st).lid =
        (if cmd.mech.servo_LID_present then
          setTargetDeg lidServoConfig cmd.mech.servo_LID_deg now st.lid
         else st.lid) ∧
      (applyCommandStep now has_cmd cmd st).sweep =
        (if cmd.mech.servo_SWEEP_present then
          setTargetDeg sweepServoConfig cmd.mech.servo_SWEEP_deg now st.sweep
         else st.sweep)) := by
  constructor
  · intro h
    unfold applyCommandStep
    split_ifs with h1 h2 <;> simp_all
  · intro hh hne
    unfold applyCommandStep
    split_ifs <;> simp_all

/-- Witness for C10: the default supervisor state has
`last_applied_seq = 0`; a first command with sequence number 0 and a
present lid target of 50° is not applied. -/
theorem C10_sequence_gated_application_witness :
    applyCommandStep 7 true
        { seq := 0, host_time_ms := 3,
          mech := { servo_LID_deg := 50, servo_LID_present := true }, valid := true }
        ({} : SupervisorState) =
      ({} : SupervisorState) :=
  (C10_sequence_gated_application 7 true
    { seq := 0, host_time_ms := 3,
      mech := { servo_LID_deg := 50, servo_LID_present := true }, valid := true }
    ({} : SupervisorState)).1 rfl

/-- C1 (corrected): with the configured timeout `COMMAND_TIMEOUT_MS`, a
command received at a nonzero time `t0` makes `commandTimedOut now`
false exactly while `now - t0 ≤ timeout` and true for `now - t0 >
timeout` (strict comparison, not the claimed `now ≥ T` boundary), and it
is true whenever no command has been received (`_last_cmd_ms = 0`).  A
receipt at time exactly 0 is indistinguishable from "never received"
because 0 is the sentinel, so the claim's `t = 0` scenario fails (see
the counterexample).  The third clause ties receipt to the stored time:
a successful decode stamps `_last_cmd_ms` with the receipt time. -/
theorem C1_watchdog_staleness :
    (∀ (s : SerialLinkState) (now : Nat), 0 < s.last_cmd_ms → s.last_cmd_ms ≤ now →
      now < U32 →
      commandTimedOut s now = decide (now - s.last_cmd_ms > COMMAND_TIMEOUT_MS)) ∧
    (∀ (s : SerialLinkState) (now : Nat), s.last_cmd_ms = 0 →
      commandTimedOut s now = true) ∧
    (∀ (now : Nat) (s : SerialLinkState) (cmd : CommandFrame),
      s.rx_buf ≠ [] → decodeCommandLine (String.mk s.rx_buf) = some cmd →
      (handleLine now s).last_cmd_ms = now) := by
  refine ⟨?_, ?_, ?_⟩
  · intro s now h0 hle hlt
    unfold commandTimedOut
    rw [if_neg (by omega), usub32_eq_sub now s.last_cmd_ms hle hlt]
  · intro s now h0
    unfold commandTimedOut
    rw [if_pos h0]
  · intro now s cmd hne hdec
    have hv : cmd.valid = true := decodeCommandLine_valid _ _ hdec
    unfold handleLine
    rw [if_neg hne, hdec]
    simp [hv]

/-- C1 counterexample: after the (valid) minimal command line is
received at time `t = 0`, `commandTimedOut 0` is already true (the
claim requires false for all `now < T`), because a receipt time of 0
collides with the never-received sentinel; and after a receipt at time
10, at `now = 10 + COMMAND_TIMEOUT_MS` (elapsed exactly `T`)
`commandTimedOut` is still false, where the claim requires true at
`now − t0 ≥ T`. -/
theorem C1_counterexample :
    commandTimedOut
        (handleLine 0
          { rx_buf := "\x7b\"type\":\"cmd\",\"seq\":1,\"host_time_ms\":2,\"drive\":\x7b\x7d,\"mech\":\x7b\x7d\x7d".data })
        0 = true ∧
    commandTimedOut
        (handleLine 10
          { rx_buf := "\x7b\"type\":\"cmd\",\"seq\":1,\"host_time_ms\":2,\"drive\":\x7b\x7d,\"mech\":\x7b\x7d\x7d".data })
        (10 + COMMAND_TIMEOUT_MS) = false := by
  decide

/-- Witness for C1: the fresh/stale formula applied at a receipt time of
10 and `now = 6011` (elapsed 6001 > 6000, stale), the never-received
case at `now = 3`, and the receipt-stamping clause on the minimal
command line at `now = 42`. -/
theorem C1_watchdog_staleness_witness :
    commandTimedOut ({ last_cmd_ms := 10 } : SerialLinkState) 6011 =
      decide (6011 - ({ last_cmd_ms := 10 } : SerialLinkState).last_cmd_ms > COMMAND_TIMEOUT_MS) ∧
    commandTimedOut ({} : SerialLinkState) 3 = true ∧
    (handleLine 42
        { rx_buf := "\x7b\"type\":\"cmd\",\"seq\":1,\"host_time_ms\":2,\"drive\":\x7b\x7d,\"mech\":\x7b\x7d\x7d".data }).last_cmd_ms = 42 :=
  ⟨C1_watchdog_staleness.1 { last_cmd_ms := 10 } 6011 (by decide) (by decide) (by decide),
   C1_watchdog_staleness.2.1 {} 3 rfl,
   C1_watchdog_staleness.2.2 42
     { rx_buf := "\x7b\"type\":\"cmd\",\"seq\":1,\"host_time_ms\":2,\"drive\":\x7b\x7d,\"mech\":\x7b\x7d\x7d".data }
     { seq := 1, host_time_ms := 2, valid := true }
     (by decide) (by decide)⟩

/-- C2 (confirmed): across any sequence of loop iterations, the
safe-command block (lid to `LID_CLOSED_DEG`, sweep to `SWEEP_STOW_DEG`,
both via `setTargetDeg`) executes exactly once per fresh-to-stale
transition of the watchdog (`risingEdges` counts them); while the link
stays stale the watchdog fragment is the identity, so the safe command
is never re-issued; and on a transition the two servo states receive
exactly the safe `setTargetDeg` calls. -/
theorem C2_safe_command_one_shot (st : SupervisorState) (trace : List (Nat × Bool)) :
    ((watchdogRun st trace).safe_issues =
      st.safe_issues + risingEdges st.in_timeout (trace.map Prod.snd)) ∧
    (∀ now, st.in_timeout = true → watchdogStep now true st = st) ∧
    (∀ now, st.in_timeout = false →
      (watchdogStep now true st).lid =
        setTargetDeg lidServoConfig LID_CLOSED_DEG now st.lid ∧
      (watchdogStep now true st).sweep =
        setTargetDeg sweepServoConfig SWEEP_STOW_DEG now st.sweep ∧
      (watchdogStep now true st).safe_issues = st.safe_issues + 1) := by
  refine ⟨watchdogRun_safe_issues trace st, ?_, ?_⟩
  · intro now h
    unfold watchdogStep
    split_ifs with h1 h2 <;> simp_all
  · intro now h
    unfold watchdogStep
    split_ifs with h1 h2 <;> simp_all

/-- Witness for C2: over the staleness trace
`[stale, stale, fresh, stale]` from boot state the safe command is
issued exactly twice; a step while already stale is the identity; and a
fresh-to-stale step issues the safe lid target. -/
theorem C2_safe_command_one_shot_witness :
    (watchdogRun ({} : SupervisorState) [(0, true), (5, true), (9, false), (12, true)]).safe_issues =
      ({} : SupervisorState).safe_issues +
        risingEdges ({} : SupervisorState).in_timeout
          ([(0, true), (5, true), (9, false), (12, true)].map Prod.snd) ∧
    watchdogStep 7 true ({ in_timeout := true } : SupervisorState) =
      ({ in_timeout := true } : SupervisorState) ∧
    (watchdogStep 7 true ({} : SupervisorState)).lid =
      setTargetDeg lidServoConfig LID_CLOSED_DEG 7 ({} : SupervisorState).lid :=
  ⟨(C2_safe_command_one_shot {} [(0, true), (5, true), (9, false), (12, true)]).1,
   (C2_safe_command_one_shot { in_timeout := true } []).2.1 7 rfl,
   ((C2_safe_command_one_shot {} []).2.2 7 rfl).1⟩

/-- C9 (corrected): the telemetry document built by
`encodeTelemetryLine` always carries the full fixed field set; every
finite numeric field appears with its exact input value, every
non-finite numeric field appears as an explicit `null` (never omitted,
never a numeric literal), and encoding is a total function.  One
amendment: the distance reading additionally requires the ultrasonic
validity flag — with `valid = false` a finite distance is still emitted
as `null` (see the counterexample). -/
theorem C9_telemetry_encode_nullability (t : TelemetryFrame) :
    (jget (some (encodeTelemetryDoc t)) "type" = some (JVal.str "telemetry")) ∧
    (jget (some (encodeTelemetryDoc t)) "arduino_time_ms" =
      some (JVal.num (t.arduino_time_ms : ℚ))) ∧
    (jget (some (encodeTelemetryDoc t)) "ack_seq" = some (JVal.num (t.ack_seq : ℚ))) ∧
    (∀ q, t.wheel.left_rpm = FloatV.fin q →
      jget (jget (some (encodeTelemetryDoc t)) "wheel") "left_rpm" = some (JVal.num q)) ∧
    (t.wheel.left_rpm = FloatV.nonfinite →
      jget (jget (some (encodeTelemetryDoc t)) "wheel") "left_rpm" = some JVal.null) ∧
    (∀ q, t.wheel.right_rpm = FloatV.fin q →
      jget (jget (some (encodeTelemetryDoc t)) "wheel") "right_rpm" = some (JVal.num q)) ∧
    (t.wheel.right_rpm = FloatV.nonfinite →
      jget (jget (some (encodeTelemetryDoc t)) "wheel") "right_rpm" = some JVal.null) ∧
    (∀ q, t.mech.servo_LID_deg = FloatV.fin q →
      jget (jget (some (encodeTelemetryDoc t)) "mech") "servo_LID_deg" = some (JVal.num q)) ∧
    (t.mech.servo_LID_deg = FloatV.nonfinite →
      jget (jget (some (encodeTelemetryDoc t)) "mech") "servo_LID_deg" = some JVal.null) ∧
    (∀ q, t.mech.servo_SWEEP_deg = FloatV.fin q →
      jget (jget (some (encodeTelemetryDoc t)) "mech") "servo_SWEEP_deg" = some (JVal.num q)) ∧
    (t.mech.servo_SWEEP_deg = FloatV.nonfinite →
      jget (jget (some (encodeTelemetryDoc t)) "mech") "servo_SWEEP_deg" = some JVal.null) ∧
    (∀ q, t.mech.motor_RHS_deg = FloatV.fin q →
      jget (jget (some (encodeTelemetryDoc t)) "mech") "motor_RHS_deg" = some (JVal.num q)) ∧
    (t.mech.motor_RHS_deg = FloatV.nonfinite →
      jget (jget (some (encodeTelemetryDoc t)) "mech") "motor_RHS_deg" = some JVal.null) ∧
    (∀ q, t.mech.motor_LHS_deg = FloatV.fin q →
      jget (jget (some (encodeTelemetryDoc t)) "mech") "motor_LHS_deg" = some (JVal.num q)) ∧
    (t.mech.motor_LHS_deg = FloatV.nonfinite →
      jget (jget (some (encodeTelemetryDoc t)) "mech") "motor_LHS_deg" = some JVal.null) ∧
    (jget (jget (some (encodeTelemetryDoc t)) "ultrasonic") "valid" =
      some (JVal.bool t.ultrasonic.valid)) ∧
    (∀ q, t.ultrasonic.valid = true → t.ultrasonic.distance_in = FloatV.fin q →
      jget (jget (some (encodeTelemetryDoc t)) "ultrasonic") "distance_in" =
        some (JVal.num q)) ∧
    (t.ultrasonic.distance_in = FloatV.nonfinite →
      jget (jget (some (encodeTelemetryDoc t)) "ultrasonic") "distance_in" =
        some JVal.null) := by
  obtain ⟨time, ack, ⟨lw, rw'⟩, ⟨m1, m2, m3, m4⟩, ⟨dist, vld⟩, note⟩ := t
  refine ⟨rfl, rfl, rfl, ?_, ?_, ?_, ?_, ?_, ?_, ?_, ?_, ?_, ?_, ?_, ?_, rfl, ?_, ?_⟩
  · intro q h; subst h; rfl
  · intro h; subst h; rfl
  · intro q h; subst h; rfl
  · intro h; subst h; rfl
  · intro q h; subst h; rfl
  · intro h; subst h; rfl
  · intro q h; subst h; rfl
  · intro h; subst h; rfl
  · intro q h; subst h; rfl
  · intro h; subst h; rfl
  · intro q h; subst h; rfl
  · intro h; subst h; rfl
  · intro q hv h; subst hv; subst h; rfl
  · intro h; subst h; cases vld <;> rfl

/-- C9 counterexample: a telemetry frame whose numeric fields are all
finite but whose ultrasonic validity flag is false encodes the (finite)
distance 7 as `null`, not as the input value — refuting the claim that
all-finite frames carry every field value exactly. -/
theorem C9_counterexample :
    (({ arduino_time_ms := 1, ack_seq := 2,
        wheel := { left_rpm := FloatV.fin 1, right_rpm := FloatV.fin 2 },
        mech := { servo_LID_deg := FloatV.fin 3, servo_SWEEP_deg := FloatV.fin 4,
                  motor_RHS_deg := FloatV.fin 5, motor_LHS_deg := FloatV.fin 6 },
        ultrasonic := { distance_in := FloatV.fin 7, valid := false } } :
        TelemetryFrame)).ultrasonic.distance_in.isfinite = true ∧
    jget
        (jget
          (some (encodeTelemetryDoc
            { arduino_time_ms := 1, ack_seq := 2,
              wheel := { left_rpm := FloatV.fin 1, right_rpm := FloatV.fin 2 },
              mech := { servo_LID_deg := FloatV.fin 3, servo_SWEEP_deg := FloatV.fin 4,
                        motor_RHS_deg := FloatV.fin 5, motor_LHS_deg := FloatV.fin 6 },
              ultrasonic := { distance_in := FloatV.fin 7, valid := false } }))
          "ultrasonic")
        "distance_in" = some JVal.null ∧
    some JVal.null ≠ some (JVal.num 7) := by
  refine ⟨rfl, rfl, ?_⟩
  simp

/-- Witness for C9: the encode-nullability theorem applied to a concrete
frame with a finite left wheel speed, a non-finite sweep angle and a
valid finite distance. -/
theorem C9_telemetry_encode_nullability_witness :
    jget
        (jget
          (some (encodeTelemetryDoc
            { arduino_time_ms := 9, ack_seq := 4,
              wheel := { left_rpm := FloatV.fin 12, right_rpm := FloatV.nonfinite },
              mech := { servo_LID_deg := FloatV.fin 30, servo_SWEEP_deg := FloatV.nonfinite,
                        motor_RHS_deg := FloatV.nonfinite, motor_LHS_deg := FloatV.nonfinite },
              ultrasonic := { distance_in := FloatV.fin 22, valid := true } }))
          "wheel")
        "left_rpm" = some (JVal.num 12) ∧
    jget
        (jget
          (some (encodeTelemetryDoc
            { arduino_time_ms := 9, ack_seq := 4,
              wheel := { left_rpm := FloatV.fin 12, right_rpm := FloatV.nonfinite },
              mech := { servo_LID_deg := FloatV.fin 30, servo_SWEEP_deg := FloatV.nonfinite,
                        motor_RHS_deg := FloatV.nonfinite, motor_LHS_deg := FloatV.nonfinite },
              ultrasonic := { distance_in := FloatV.fin 22, valid := true } }))
          "mech")
        "servo_SWEEP_deg" = some JVal.null ∧
    jget
        (jget
          (some (encodeTelemetryDoc
            { arduino_time_ms := 9, ack_seq := 4,
              wheel := { left_rpm := FloatV.fin 12, right_rpm := FloatV.nonfinite },
              mech := { servo_LID_deg := FloatV.fin 30, servo_SWEEP_deg := FloatV.nonfinite,
                        motor_RHS_deg := FloatV.nonfinite, motor_LHS_deg := FloatV.nonfinite },
              ultrasonic := { distance_in := FloatV.fin 22, valid := true } }))
          "ultrasonic")
        "distance_in" = some (JVal.num 22) :=
  ⟨(C9_telemetry_encode_nullability _).2.2.2.1 12 rfl,
   (C9_telemetry_encode_nullability _).2.2.2.2.2.2.2.2.2.2.1 rfl,
   (C9_telemetry_encode_nullability _).2.2.2.2.2.2.2.2.2.2.2.2.2.2.2.2.1 22 rfl rfl⟩

/-! ## Framer lemmas (SerialLink::tick) -/

/-- A carriage return is always discarded. -/
theorem processByte_cr (now : Nat) (s : SerialLinkState) : processByte now s '\r' = s := by
  simp [processByte]

/-- In dropping mode every byte other than a newline is discarded. -/
theorem processByte_drop (now : Nat) (s : SerialLinkState) (c : Char)
    (hd : s.dropping = true) (hc1 : c ≠ '\n') (hc2 : c ≠ '\r') :
    processByte now s c = s := by
  simp [processByte, hd, hc1, hc2]

/-- In dropping mode a newline resynchronises: dropping ends and the
buffer resets. -/
theorem processByte_drop_nl (now : Nat) (s : SerialLinkState) (hd : s.dropping = true) :
    processByte now s '\n' = { s with dropping := false, rx_buf := [] } := by
  simp [processByte, hd]

/-- Outside dropping mode a newline completes the frame: the line
counter and longest-line tracker advance, the buffered line goes to
`handleLine_`, and the buffer resets. -/
theorem processByte_nl (now : Nat) (s : SerialLinkState) (hd : s.dropping = false) :
    processByte now s '\n' =
      { handleLine now
          { s with lines := s.lines + 1,
                   max_len_seen := max s.max_len_seen s.rx_buf.length } with
        rx_buf := [] } := by
  simp [processByte, hd]

/-- Outside dropping mode an ordinary byte is appended while there is
room. -/
theorem processByte_append (now : Nat) (s : SerialLinkState) (c : Char)
    (hd : s.dropping = false) (hc1 : c ≠ '\n') (hc2 : c ≠ '\r')
    (hlen : s.rx_buf.length + 1 < RX_BUF_SIZE) :
    processByte now s c = { s with rx_buf := s.rx_buf ++ [c] } := by
  simp [processByte, hd, hc1, hc2, hlen]

/-- Outside dropping mode an ordinary byte with the buffer full trips
the overflow counter, discards the partial frame and enters dropping
mode. -/
theorem processByte_overflow (now : Nat) (s : SerialLinkState) (c : Char)
    (hd : s.dropping = false) (hc1 : c ≠ '\n') (hc2 : c ≠ '\r')
    (hlen : ¬ s.rx_buf.length + 1 < RX_BUF_SIZE) :
    processByte now s c = { s with ovf := s.ovf + 1, dropping := true, rx_buf := [] } := by
  simp [processByte, hd, hc1, hc2, hlen]

/-- A run of non-newline bytes is entirely absorbed in dropping mode. -/
theorem linkTick_drop_run (now : Nat) (junk : List Char) :
    ∀ s : SerialLinkState, s.dropping = true → (∀ c ∈ junk, c ≠ '\n') →
      linkTick now junk s = s := by
  induction junk with
  | nil => intro s _ _; rfl
  | cons c rest ih =>
    intro s hd hj
    have hstep : linkTick now (c :: rest) s = linkTick now rest (processByte now s c) := rfl
    by_cases hcr : c = '\r'
    · rw [hstep, hcr, processByte_cr]
      exact ih s hd fun c hc => hj c (List.mem_cons_of_mem _ hc)
    · rw [hstep, processByte_drop now s c hd (hj c (List.mem_cons_self c rest)) hcr]
      exact ih s hd fun c hc => hj c (List.mem_cons_of_mem _ hc)

/-- A run of ordinary bytes outside dropping mode either fits (and is
appended whole) or overflows exactly once, discarding the frame and
entering dropping mode. -/
theorem linkTick_plain_run (now : Nat) (junk : List Char) :
    ∀ s : SerialLinkState, s.dropping = false → s.rx_buf.length < RX_BUF_SIZE →
      (∀ c ∈ junk, c ≠ '\n' ∧ c ≠ '\r') →
      linkTick now junk s =
        if s.rx_buf.length + junk.length < RX_BUF_SIZE then
          { s with rx_buf := s.rx_buf ++ junk }
        else { s with ovf := s.ovf + 1, dropping := true, rx_buf := [] } := by
  induction junk with
  | nil =>
    intro s hd hb _
    rw [if_pos (by simpa using hb)]
    simp [linkTick]
  | cons c rest ih =>
    intro s hd hb hj
    have hstep : linkTick now (c :: rest) s = linkTick now rest (processByte now s c) := rfl
    obtain ⟨hc1, hc2⟩ := hj c (List.mem_cons_self c rest)
    have hjr : ∀ c ∈ rest, c ≠ '\n' ∧ c ≠ '\r' := fun c hc => hj c (List.mem_cons_of_mem _ hc)
    by_cases hfit : s.rx_buf.length + 1 < RX_BUF_SIZE
    · rw [hstep, processByte_append now s c hd hc1 hc2 hfit]
      rw [ih { s with rx_buf := s.rx_buf ++ [c] } hd (by simpa using hfit) hjr]
      simp only [List.length_append, List.length_cons, List.length_nil, List.append_assoc,
        List.singleton_append]
      by_cases h2 : s.rx_buf.length + (rest.length + 1) < RX_BUF_SIZE
      · rw [if_pos (by omega), if_pos h2]
      · rw [if_neg (by omega), if_neg h2]
    · rw [hstep, processByte_overflow now s c hd hc1 hc2 hfit]
      rw [linkTick_drop_run now rest _ rfl (fun c hc => (hjr c hc).1)]
      rw [if_neg (by simp only [List.length_cons]; omega)]

/-- A run of carriage returns is entirely discarded. -/
theorem linkTick_cr_run (now : Nat) (k : Nat) :
    ∀ s : SerialLinkState, linkTick now (List.replicate k '\r') s = s := by
  induction k with
  | zero => intro s; rfl
  | succ n ih =>
    intro s
    have hstep : linkTick now (List.replicate (n + 1) '\r') s =
        linkTick now (List.replicate n '\r') (processByte now s '\r') := by
      rw [List.replicate_succ]; rfl
    rw [hstep, processByte_cr]
    exact ih s

/-- Feeding one newline-terminated, newline-free line from a clean
buffer hands exactly that line to `handleLine_` and resets the
buffer. -/
theorem linkTick_one_line (now : Nat) (line : List Char) (s : SerialLinkState)
    (hd : s.dropping = false) (hbuf : s.rx_buf = [])
    (hl : ∀ c ∈ line, c ≠ '\n' ∧ c ≠ '\r') (hlen : line.length < RX_BUF_SIZE) :
    linkTick now (line ++ ['\n']) s =
      { handleLine now
          { s with rx_buf := line, lines := s.lines + 1,
                   max_len_seen := max s.max_len_seen line.length } with
        rx_buf := [] } := by
  have h1 : linkTick now (line ++ ['\n']) s = linkTick now ['\n'] (linkTick now line s) := by
    simp [linkTick, List.foldl_append]
  rw [h1, linkTick_plain_run now line s hd (by simp [hbuf, RX_BUF_SIZE]) hl]
  rw [if_pos (by simp only [hbuf, List.length_nil]; omega)]
  have h2 : linkTick now ['\n'] ({ s with rx_buf := s.rx_buf ++ line }) =
      processByte now { s with rx_buf := s.rx_buf ++ line } '\n' := rfl
  rw [h2, processByte_nl _ _ (by simpa using hd)]
  simp [hbuf]

/-- A line that fails to decode only bumps the rejected counter (and the
delivery history); the stored command, receipt time and ack are
untouched. -/
theorem handleLine_fail (now : Nat) (s : SerialLinkState) (hne : s.rx_buf ≠ [])
    (hdec : decodeCommandLine (String.mk s.rx_buf) = none) :
    handleLine now s =
      { s with fail := s.fail + 1, delivered := s.delivered ++ [s.rx_buf] } := by
  unfold handleLine
  rw [if_neg hne, hdec]

/-- A line that decodes replaces the stored command, stamps the receipt
time, records the ack sequence and bumps the decoded counter. -/
theorem handleLine_ok (now : Nat) (s : SerialLinkState) (cmd : CommandFrame)
    (hne : s.rx_buf ≠ [])
    (hdec : decodeCommandLine (String.mk s.rx_buf) = some cmd) :
    handleLine now s =
      { s with latest_cmd := cmd, has_cmd := true, last_cmd_ms := now,
               ack_seq := cmd.seq, ok := s.ok + 1,
               delivered := s.delivered ++ [s.rx_buf] } := by
  have hv := decodeCommandLine_valid _ _ hdec
  unfold handleLine
  rw [if_neg hne, hdec]
  simp [hv]

/-- Any number of malformed (but in-size, newline-free, nonempty) lines
leave the stored command, receipt time, ack, decoded and overflow
counters untouched; only the rejected counter advances, once per
line. -/
theorem linkTick_malformed_lines (now : Nat) (ls : List (List Char)) :
    ∀ s : SerialLinkState, s.dropping = false → s.rx_buf = [] →
      (∀ l ∈ ls, l ≠ [] ∧ l.length < RX_BUF_SIZE ∧ (∀ c ∈ l, c ≠ '\n' ∧ c ≠ '\r') ∧
        decodeCommandLine (String.mk l) = none) →
      (linkTick now (joinLines ls) s).latest_cmd = s.latest_cmd ∧
      (linkTick now (joinLines ls) s).has_cmd = s.has_cmd ∧
      (linkTick now (joinLines ls) s).last_cmd_ms = s.last_cmd_ms ∧
      (linkTick now (joinLines ls) s).ack_seq = s.ack_seq ∧
      (linkTick now (joinLines ls) s).fail = s.fail + ls.length ∧
      (linkTick now (joinLines ls) s).ok = s.ok ∧
      (linkTick now (joinLines ls) s).ovf = s.ovf ∧
      (linkTick now (joinLines ls) s).dropping = false ∧
      (linkTick now (joinLines ls) s).rx_buf = [] := by
  induction ls with
  | nil => intro s hd hb _; simp [joinLines, linkTick, hd, hb]
  | cons l rest ih =>
    intro s hd hb hls
    obtain ⟨hne, hlen, hchars, hdec⟩ := hls l (List.mem_cons_self l rest)
    have hrest : ∀ l' ∈ rest, l' ≠ [] ∧ l'.length < RX_BUF_SIZE ∧
        (∀ c ∈ l', c ≠ '\n' ∧ c ≠ '\r') ∧ decodeCommandLine (String.mk l') = none :=
      fun l' hl' => hls l' (List.mem_cons_of_mem _ hl')
    have hsplit : linkTick now (joinLines (l :: rest)) s =
        linkTick now (joinLines rest) (linkTick now (l ++ ['\n']) s) := by
      simp [joinLines, linkTick, List.foldl_append]
    rw [hsplit, linkTick_one_line now l s hd hb hchars hlen,
      handleLine_fail now _ (by simpa using hne) (by simpa using hdec)]
    obtain ⟨e1, e2, e3, e4, e5, e6, e7, e8, e9⟩ := ih
      { { s with rx_buf := l, lines := s.lines + 1,
                 max_len_seen := max s.max_len_seen l.length } with
        fail := s.fail + 1, delivered := s.delivered ++ [l], rx_buf := ([] : List Char) }
      (by simpa using hd) rfl hrest
    refine ⟨e1, e2, e3, e4, ?_, e6, e7, e8, e9⟩
    rw [e5]
    show s.fail + 1 + rest.length = s.fail + (l :: rest).length
    simp only [List.length_cons]
    omega

/-- C3 (corrected): feeding, from a freshly initialised link, a run of
`N ≥ RX_BUF_SIZE` bytes none of which is a newline *or a carriage
return* (the amendment: `\r` bytes are silently discarded before
framing, so they do not fill the buffer — see the counterexample),
followed by a newline and then a decodable newline-free frame shorter
than the buffer, (a) increments the overflow counter exactly once,
discards the partial frame and buffers nothing further from the
oversized frame (the mid state), and (b) after the resync newline,
hands the decoder exactly the one following frame and nothing else
(`delivered = [frame]`), which decodes into the stored command. -/
theorem C3_overflow_resync (now : Nat) (junk frame : List Char) (cmd : CommandFrame)
    (hj : ∀ c ∈ junk, c ≠ '\n' ∧ c ≠ '\r') (hjlen : RX_BUF_SIZE ≤ junk.length)
    (hf : ∀ c ∈ frame, c ≠ '\n' ∧ c ≠ '\r') (hfne : frame ≠ [])
    (hflen : frame.length < RX_BUF_SIZE)
    (hdec : decodeCommandLine (String.mk frame) = some cmd) :
    linkTick now junk ({} : SerialLinkState) =
      ({ ovf := 1, dropping := true } : SerialLinkState) ∧
    linkTick now (junk ++ '\n' :: frame ++ ['\n']) ({} : SerialLinkState) =
      { ovf := 1, lines := 1, ok := 1, has_cmd := true, latest_cmd := cmd,
        last_cmd_ms := now, ack_seq := cmd.seq, max_len_seen := frame.length,
        delivered := [frame] } := by
  have hmid : linkTick now junk ({} : SerialLinkState) =
      ({ ovf := 1, dropping := true } : SerialLinkState) := by
    rw [linkTick_plain_run now junk {} rfl (by simp [RX_BUF_SIZE]) hj]
    rw [if_neg (by simp only [List.length_nil]; omega)]
  refine ⟨hmid, ?_⟩
  have hsplit : linkTick now (junk ++ '\n' :: frame ++ ['\n']) ({} : SerialLinkState) =
      linkTick now ('\n' :: (frame ++ ['\n'])) (linkTick now junk {}) := by
    simp [linkTick, List.foldl_append]
  rw [hsplit, hmid]
  have h2 : linkTick now ('\n' :: (frame ++ ['\n']))
        ({ ovf := 1, dropping := true } : SerialLinkState) =
      linkTick now (frame ++ ['\n'])
        (processByte now { ovf := 1, dropping := true } '\n') := rfl
  rw [h2, processByte_drop_nl _ _ rfl]
  rw [linkTick_one_line now frame _ rfl rfl hf hflen]
  rw [handleLine_ok now _ cmd (by simpa using hfne) (by simpa using hdec)]
  simp

set_option maxRecDepth 16000 in
/-- C3 counterexample: a run of `RX_BUF_SIZE + 1` carriage returns is a
run of more-than-buffer-capacity non-newline bytes, yet it causes no
overflow at all (`ovf = 0`, the claim requires exactly one), because
`\r` is discarded before buffering; the following frame still decodes
(`ok = 1`). -/
theorem C3_counterexample :
    (linkTick 0
        (List.replicate (RX_BUF_SIZE + 1) '\r' ++
          '\n' :: "\x7b\"type\":\"cmd\",\"seq\":1,\"host_time_ms\":2,\"drive\":\x7b\x7d,\"mech\":\x7b\x7d\x7d".data ++ ['\n'])
        ({} : SerialLinkState)).ovf = 0 ∧
    (linkTick 0
        (List.replicate (RX_BUF_SIZE + 1) '\r' ++
          '\n' :: "\x7b\"type\":\"cmd\",\"seq\":1,\"host_time_ms\":2,\"drive\":\x7b\x7d,\"mech\":\x7b\x7d\x7d".data ++ ['\n'])
        ({} : SerialLinkState)).ok = 1 := by
  have hsplit :
      linkTick 0
          (List.replicate (RX_BUF_SIZE + 1) '\r' ++
            '\n' :: "\x7b\"type\":\"cmd\",\"seq\":1,\"host_time_ms\":2,\"drive\":\x7b\x7d,\"mech\":\x7b\x7d\x7d".data ++ ['\n'])
          ({} : SerialLinkState) =
        linkTick 0
          ('\n' :: "\x7b\"type\":\"cmd\",\"seq\":1,\"host_time_ms\":2,\"drive\":\x7b\x7d,\"mech\":\x7b\x7d\x7d".data ++ ['\n'])
          (linkTick 0 (List.replicate (RX_BUF_SIZE + 1) '\r') ({} : SerialLinkState)) := by
    simp [linkTick, List.foldl_append]
  rw [hsplit, linkTick_cr_run]
  constructor <;> decide

set_option maxRecDepth 16000 in
/-- Witness for C3: 2048 `'a'` bytes overflow once; the minimal command
frame after the resync newline is the only line delivered and decodes
into the stored command. -/
theorem C3_overflow_resync_witness :
    linkTick 3 (List.replicate 2048 'a') ({} : SerialLinkState) =
      ({ ovf := 1, dropping := true } : SerialLinkState) ∧
    linkTick 3
        (List.replicate 2048 'a' ++
          '\n' :: "\x7b\"type\":\"cmd\",\"seq\":1,\"host_time_ms\":2,\"drive\":\x7b\x7d,\"mech\":\x7b\x7d\x7d".data ++ ['\n'])
        ({} : SerialLinkState) =
      { ovf := 1, lines := 1, ok := 1, has_cmd := true,
        latest_cmd := { seq := 1, host_time_ms := 2, valid := true },
        last_cmd_ms := 3,
        ack_seq := ({ seq := 1, host_time_ms := 2, valid := true } : CommandFrame).seq,
        max_len_seen :=
          "\x7b\"type\":\"cmd\",\"seq\":1,\"host_time_ms\":2,\"drive\":\x7b\x7d,\"mech\":\x7b\x7d\x7d".data.length,
        delivered := ["\x7b\"type\":\"cmd\",\"seq\":1,\"host_time_ms\":2,\"drive\":\x7b\x7d,\"mech\":\x7b\x7d\x7d".data] } :=
  C3_overflow_resync 3 (List.replicate 2048 'a')
    "\x7b\"type\":\"cmd\",\"seq\":1,\"host_time_ms\":2,\"drive\":\x7b\x7d,\"mech\":\x7b\x7d\x7d".data
    { seq := 1, host_time_ms := 2, valid := true }
    (fun c hc => by rcases List.eq_of_mem_replicate hc with rfl; exact ⟨by decide, by decide⟩)
    (by simp [RX_BUF_SIZE])
    (by decide) (by decide) (by decide) (by decide)

/-- C4 (corrected): `decodeCommandLine` succeeds exactly when the line
parses as a JSON object whose `type` is the string `"cmd"`, whose `seq`
and `host_time_ms` members are *present* (the claimed "and numeric" is
not checked — a non-numeric value coerces instead, see the
counterexample), and whose `drive` and `mech` members are JSON objects.
On failure of any check, a nonempty line only bumps the rejected
counter: the stored command, receipt time and ack are untouched, and
arbitrarily many malformed lines in a row leave everything but the
rejected counter unchanged (third clause; the framework is total, so no
fatal error is possible).  Second amendment: an *empty* frame is
discarded before decoding without bumping the rejected counter. -/
theorem C4_decode_accept_iff :
    (∀ line : String, (decodeCommandLine line).isSome = acceptsCommandSpec line) ∧
    (∀ (now : Nat) (s : SerialLinkState), s.rx_buf ≠ [] →
      decodeCommandLine (String.mk s.rx_buf) = none →
      handleLine now s =
        { s with fail := s.fail + 1, delivered := s.delivered ++ [s.rx_buf] }) ∧
    (∀ (now : Nat) (s : SerialLinkState) (ls : List (List Char)),
      s.dropping = false → s.rx_buf = [] →
      (∀ l ∈ ls, l ≠ [] ∧ l.length < RX_BUF_SIZE ∧ (∀ c ∈ l, c ≠ '\n' ∧ c ≠ '\r') ∧
        decodeCommandLine (String.mk l) = none) →
      (linkTick now (joinLines ls) s).latest_cmd = s.latest_cmd ∧
      (linkTick now (joinLines ls) s).has_cmd = s.has_cmd ∧
      (linkTick now (joinLines ls) s).last_cmd_ms = s.last_cmd_ms ∧
      (linkTick now (joinLines ls) s).ack_seq = s.ack_seq ∧
      (linkTick now (joinLines ls) s).fail = s.fail + ls.length ∧
      (linkTick now (joinLines ls) s).ok = s.ok) := by
  refine ⟨?_, ?_, ?_⟩
  · intro line
    unfold decodeCommandLine acceptsCommandSpec
    cases hp : jparse line with
    | none => rfl
    | some v =>
      cases v with
      | null => rfl
      | bool b => rfl
      | num q => rfl
      | str t => rfl
      | arr vs => rfl
      | obj ms =>
        simp only [asObj]
        cases hty : jlookup ms "type" with
        | none => rfl
        | some tv =>
          cases tv with
          | null => rfl
          | bool b => rfl
          | num q => rfl
          | arr vs => rfl
          | obj m2 => rfl
          | str t =>
            simp only [asCStr]
            by_cases ht : t = "cmd"
            · subst ht
              simp only [ne_eq, not_true_eq_false, if_false]
              by_cases h1 : (jlookup ms "seq").isSome = true
              case neg => simp [containsKey, h1]
              by_cases h2 : (jlookup ms "host_time_ms").isSome = true
              case neg => simp [containsKey, h1, h2]
              cases hd : jlookup ms "drive" with
              | none => simp [containsKey, h1, h2, hd]
              | some dv =>
                cases dv with
                | null => simp [containsKey, h1, h2, hd]
                | bool b => simp [containsKey, h1, h2, hd]
                | num q => simp [containsKey, h1, h2, hd]
                | str t2 => simp [containsKey, h1, h2, hd]
                | arr vs => simp [containsKey, h1, h2, hd]
                | obj dms =>
                  cases hm : jlookup ms "mech" with
                  | none => simp [containsKey, h1, h2, hd, hm]
                  | some mv =>
                    cases mv with
                    | null => simp [containsKey, h1, h2, hd, hm]
                    | bool b => simp [containsKey, h1, h2, hd, hm]
                    | num q => simp [containsKey, h1, h2, hd, hm]
                    | str t2 => simp [containsKey, h1, h2, hd, hm]
                    | arr vs => simp [containsKey, h1, h2, hd, hm]
                    | obj mms => simp [containsKey, h1, h2, hd, hm]
            · simp [ht]
  · exact fun now s hne hdec => handleLine_fail now s hne hdec
  · intro now s ls hd hb hls
    obtain ⟨e1, e2, e3, e4, e5, e6, _, _, _⟩ := linkTick_malformed_lines now ls s hd hb hls
    exact ⟨e1, e2, e3, e4, e5, e6⟩

/-- C4 counterexample: the line with `"seq"` bound to an *object* — not
a number — still decodes successfully (`isSome = true`, refuting the
"present and numeric" requirement); and an empty frame (a bare newline)
is counted as a seen line but does not bump the rejected counter
(refuting "for every line that fails any of these checks … the rejected
counter is incremented"). -/
theorem C4_counterexample :
    (decodeCommandLine
        "\x7b\"type\":\"cmd\",\"seq\":\x7b\x7d,\"host_time_ms\":1,\"drive\":\x7b\x7d,\"mech\":\x7b\x7d\x7d").isSome =
      true ∧
    (linkTick 0 ['\n'] ({} : SerialLinkState)).lines = 1 ∧
    (linkTick 0 ['\n'] ({} : SerialLinkState)).fail = 0 := by
  refine ⟨by decide, by decide, by decide⟩

/-- Witness for C4: the accept condition evaluated on a non-JSON line
(both sides false), the reject-atomicity clause on a concrete garbage
buffer, and the malformed-run clause on two concrete bad lines. -/
theorem C4_decode_accept_iff_witness :
    (decodeCommandLine "garbage").isSome = acceptsCommandSpec "garbage" ∧
    handleLine 6 ({ rx_buf := "oops".data, fail := 4 } : SerialLinkState) =
      { ({ rx_buf := "oops".data, fail := 4 } : SerialLinkState) with
        fail := ({ rx_buf := "oops".data, fail := 4 } : SerialLinkState).fail + 1,
        delivered := [['o', 'o', 'p', 's']] } ∧
    (linkTick 9 (joinLines [['b', 'a', 'd'], ['x']]) ({} : SerialLinkState)).fail =
      ({} : SerialLinkState).fail + [['b', 'a', 'd'], ['x']].length ∧
    (linkTick 9 (joinLines [['b', 'a', 'd'], ['x']]) ({} : SerialLinkState)).ok =
      ({} : SerialLinkState).ok :=
  ⟨C4_decode_accept_iff.1 "garbage",
   C4_decode_accept_iff.2.1 6 { rx_buf := "oops".data, fail := 4 } (by decide) (by decide),
   ((C4_decode_accept_iff.2.2 9 {} [['b', 'a', 'd'], ['x']] rfl rfl (by decide)).2.2.2.2).1,
   ((C4_decode_accept_iff.2.2 9 {} [['b', 'a', 'd'], ['x']] rfl rfl (by decide)).2.2.2.2).2⟩

/-- C7 (confirmed): for any line that passes every required-field check
(well-formed object, `type = "cmd"`, `seq`/`host_time_ms` present,
`drive`/`mech` objects), a `motor_RHS` entry that is an object whose
`mode` is a string other than `"POS_DEG"`/`"DUTY"` leaves exactly that
one target absent (`present = false`) while the frame still decodes
with `valid = true`, and the other optional targets are decided purely
by their own fields. -/
theorem C7_unknown_mode_degradation (line : String)
    (ms dms mms m : List (String × JVal)) (s : String)
    (hp : jparse line = some (JVal.obj ms))
    (hty : jlookup ms "type" = some (JVal.str "cmd"))
    (hseq : (jlookup ms "seq").isSome = true)
    (hhost : (jlookup ms "host_time_ms").isSome = true)
    (hdrv : jlookup ms "drive" = some (JVal.obj dms))
    (hmech : jlookup ms "mech" = some (JVal.obj mms))
    (hm : jlookup mms "motor_RHS" = some (JVal.obj m))
    (hmode : jlookup m "mode" = some (JVal.str s))
    (hs1 : s ≠ "POS_DEG") (hs2 : s ≠ "DUTY") :
    ∃ cmd, decodeCommandLine line = some cmd ∧ cmd.valid = true ∧
      cmd.mech.motor_RHS.present = false ∧
      cmd.mech.motor_RHS = ({} : MechMotorCommand) ∧
      cmd.mech.motor_LHS = decodeMotor mms "motor_LHS" ∧
      cmd.mech.servo_LID_present = !jIsNull (jlookup mms "servo_LID_deg") ∧
      cmd.mech.servo_SWEEP_present = !jIsNull (jlookup mms "servo_SWEEP_deg") := by
  have hRHS : decodeMotor mms "motor_RHS" = ({} : MechMotorCommand) := by
    unfold decodeMotor
    rw [hm]
    simp only [jIsNull, jget, hmode]
    have hpm : parseMode (asCStr (some (JVal.str s))) = MechMotorMode.UNKNOWN := by
      simp [asCStr, parseMode, hs1, hs2]
    rw [hpm]
    simp
  unfold decodeCommandLine
  rw [hp]
  simp only [asObj]
  rw [hty]
  simp only [asCStr, ne_eq, not_true_eq_false, if_false]
  simp only [containsKey, hseq, hhost, hdrv, hmech]
  simp only [not_true_eq_false, if_false, asObj]
  refine ⟨_, rfl, rfl, ?_, ?_, rfl, ?_, ?_⟩
  · simp [hRHS]
  · simp [hRHS]
  · simp
  · simp

/-- Witness for C7: a concrete command line whose `motor_RHS` mode tag
is the unrecognized `"SPIN"`; the frame decodes, the right motor target
is absent and the sweep servo target (present in the same `mech`
object) is still reported present. -/
theorem C7_unknown_mode_degradation_witness :
    ∃ cmd,
      decodeCommandLine
          "\x7b\"type\":\"cmd\",\"seq\":2,\"host_time_ms\":1,\"drive\":\x7b\x7d,\"mech\":\x7b\"motor_RHS\":\x7b\"mode\":\"SPIN\",\"value\":3\x7d,\"servo_SWEEP_deg\":12\x7d\x7d" =
        some cmd ∧
      cmd.valid = true ∧ cmd.mech.motor_RHS.present = false ∧
      cmd.mech.motor_RHS = ({} : MechMotorCommand) ∧
      cmd.mech.motor_LHS =
        decodeMotor
          [("motor_RHS", JVal.obj [("mode", JVal.str "SPIN"), ("value", JVal.num 3)]),
           ("servo_SWEEP_deg", JVal.num 12)] "motor_LHS" ∧
      cmd.mech.servo_LID_present =
        !jIsNull (jlookup
          [("motor_RHS", JVal.obj [("mode", JVal.str "SPIN"), ("value", JVal.num 3)]),
           ("servo_SWEEP_deg", JVal.num 12)] "servo_LID_deg") ∧
      cmd.mech.servo_SWEEP_present =
        !jIsNull (jlookup
          [("motor_RHS", JVal.obj [("mode", JVal.str "SPIN"), ("value", JVal.num 3)]),
           ("servo_SWEEP_deg", JVal.num 12)] "servo_SWEEP_deg") :=
  C7_unknown_mode_degradation
    "\x7b\"type\":\"cmd\",\"seq\":2,\"host_time_ms\":1,\"drive\":\x7b\x7d,\"mech\":\x7b\"motor_RHS\":\x7b\"mode\":\"SPIN\",\"value\":3\x7d,\"servo_SWEEP_deg\":12\x7d\x7d"
    [("type", JVal.str "cmd"), ("seq", JVal.num 2), ("host_time_ms", JVal.num 1),
     ("drive", JVal.obj []),
     ("mech", JVal.obj
        [("motor_RHS", JVal.obj [("mode", JVal.str "SPIN"), ("value", JVal.num 3)]),
         ("servo_SWEEP_deg", JVal.num 12)])]
    []
    [("motor_RHS", JVal.obj [("mode", JVal.str "SPIN"), ("value", JVal.num 3)]),
     ("servo_SWEEP_deg", JVal.num 12)]
    [("mode", JVal.str "SPIN"), ("value", JVal.num 3)]
    "SPIN"
    (by rfl) (by rfl) (by rfl) (by rfl) (by rfl) (by rfl) (by rfl) (by rfl)
    (by decide) (by decide)

/-! ## Servo ramp lemmas (ServoActuator) -/

/-- The modelled `fabsf` agrees with the mathematical absolute value. -/
theorem fabs_eq_abs (q : ℚ) : fabs q = |q| := by
  unfold fabs
  split_ifs with h
  · exact (abs_of_neg h).symm
  · exact (abs_of_nonneg (not_lt.mp h)).symm

theorem clampDeg_mem (cfg : ServoConfig) (d : ℚ) (h : cfg.min_deg ≤ cfg.max_deg) :
    cfg.min_deg ≤ clampDeg cfg d ∧ clampDeg cfg d ≤ cfg.max_deg := by
  unfold clampDeg
  split_ifs <;> constructor <;> linarith

theorem clampDeg_id (cfg : ServoConfig) (d : ℚ) (h1 : cfg.min_deg ≤ d) (h2 : d ≤ cfg.max_deg) :
    clampDeg cfg d = d := by
  unfold clampDeg
  split_ifs <;> linarith

theorem mkRat_nat_pos (n : Nat) (d : Nat) (hn : 0 < n) (hd : 0 < d) :
    0 < mkRat (n : Int) d := by
  rw [Rat.mkRat_eq_div]
  apply div_pos
  · exact_mod_cast hn
  · exact_mod_cast hd

theorem rampStep_props (tgt cur step eps : ℚ) (hstep : 0 < step) (heps : 0 < eps)
    (v : ℚ)
    (hv : v = if fabs (tgt - cur) ≤ eps then tgt
              else if tgt - cur > 0 then (if cur + step ≥ tgt then tgt else cur + step)
              else (if cur - step ≤ tgt then tgt else cur - step)) :
    min cur tgt ≤ v ∧ v ≤ max cur tgt ∧
    |tgt - v| ≤ max 0 (|tgt - cur| - step) ∧ |v - cur| ≤ max step eps := by
  subst hv
  rw [fabs_eq_abs]
  split_ifs with h1 h2 h3 h4
  · refine ⟨min_le_right _ _, le_max_right _ _, ?_, ?_⟩
    · simpa using le_max_left 0 (|tgt - cur| - step)
    · exact le_trans h1 (le_max_right _ _)
  · refine ⟨min_le_right _ _, le_max_right _ _, ?_, ?_⟩
    · simpa using le_max_left 0 (|tgt - cur| - step)
    · rw [abs_of_pos h2]
      exact le_trans (by linarith) (le_max_left _ _)
  · refine ⟨le_trans (min_le_left _ _) (by linarith), le_trans (by linarith) (le_max_right _ _), ?_, ?_⟩
    · rw [abs_of_pos (show (0:ℚ) < tgt - (cur + step) by linarith), abs_of_pos h2]
      exact le_trans (le_of_eq (by ring)) (le_max_right _ _)
    · rw [show cur + step - cur = step by ring, abs_of_pos hstep]
      exact le_max_left _ _
  · refine ⟨min_le_right _ _, le_max_right _ _, ?_, ?_⟩
    · simpa using le_max_left 0 (|tgt - cur| - step)
    · rw [abs_of_nonpos (show tgt - cur ≤ 0 by linarith)]
      exact le_trans (by linarith) (le_max_left _ _)
  · refine ⟨le_trans (min_le_right _ _) (by linarith), le_trans (by linarith) (le_max_left _ _), ?_, ?_⟩
    · rw [abs_of_nonpos (show tgt - (cur - step) ≤ 0 by linarith),
        abs_of_nonpos (show tgt - cur ≤ 0 by linarith)]
      exact le_trans (le_of_eq (by ring)) (le_max_right _ _)
    · rw [show cur - step - cur = -step by ring, abs_neg, abs_of_pos hstep]
      exact le_max_left _ _

theorem updateAtTargetFlags_current (cfg : ServoConfig) (now : Nat) (s : ServoState) :
    (updateAtTargetFlags cfg now s).current_deg = s.current_deg := by
  unfold updateAtTargetFlags; split_ifs <;> rfl

theorem updateAtTargetFlags_target (cfg : ServoConfig) (now : Nat) (s : ServoState) :
    (updateAtTargetFlags cfg now s).target_deg = s.target_deg := by
  unfold updateAtTargetFlags; split_ifs <;> rfl

theorem updateAtTargetFlags_attached (cfg : ServoConfig) (now : Nat) (s : ServoState) :
    (updateAtTargetFlags cfg now s).is_attached = s.is_attached := by
  unfold updateAtTargetFlags; split_ifs <;> rfl

theorem updateAtTargetFlags_last (cfg : ServoConfig) (now : Nat) (s : ServoState) :
    (updateAtTargetFlags cfg now s).last_update_ms = s.last_update_ms := by
  unfold updateAtTargetFlags; split_ifs <;> rfl

theorem tickServo_step (cfg : ServoConfig) (s : ServoState) (now : Nat)
    (hat : s.is_attached = true) (hauto : cfg.auto_detach_on_closed = false)
    (hr : 0 < cfg.ramp_dps) (hmm : cfg.min_deg ≤ cfg.max_deg)
    (hc1 : cfg.min_deg ≤ s.current_deg) (hc2 : s.current_deg ≤ cfg.max_deg)
    (ht1 : cfg.min_deg ≤ s.target_deg) (ht2 : s.target_deg ≤ cfg.max_deg)
    (hlt : s.last_update_ms < now) (hnow : now < U32) :
    (tickServo cfg now s).is_attached = true ∧
    (tickServo cfg now s).target_deg = s.target_deg ∧
    (tickServo cfg now s).last_update_ms = now ∧
    min s.current_deg s.target_deg ≤ (tickServo cfg now s).current_deg ∧
    (tickServo cfg now s).current_deg ≤ max s.current_deg s.target_deg ∧
    |s.target_deg - (tickServo cfg now s).current_deg| ≤
      max 0 (|s.target_deg - s.current_deg| -
        cfg.ramp_dps * mkRat (now - s.last_update_ms : ℕ) 1000) ∧
    |(tickServo cfg now s).current_deg - s.current_deg| ≤
      max (cfg.ramp_dps * mkRat (now - s.last_update_ms : ℕ) 1000) (mkRat 1 10000) := by
  have hdt : usub32 now s.last_update_ms = now - s.last_update_ms :=
    usub32_eq_sub _ _ hlt.le hnow
  have hstep : 0 < cfg.ramp_dps * mkRat (now - s.last_update_ms : ℕ) 1000 := by
    apply mul_pos hr
    rw [Rat.mkRat_eq_div]
    apply div_pos
    · exact_mod_cast Nat.sub_pos_of_lt hlt
    · norm_num
  have heps : 0 < (mkRat 1 10000 : ℚ) := by
    rw [Rat.mkRat_eq_div]; norm_num
  obtain ⟨tgt, cur, att, atg, last, since⟩ := s
  dsimp only at hat hc1 hc2 ht1 ht2 hlt hdt hstep ⊢
  subst hat
  obtain ⟨p1, p2, p3, p4⟩ :=
    rampStep_props tgt cur (cfg.ramp_dps * mkRat (now - last : ℕ) 1000) (mkRat 1 10000)
      hstep heps _ rfl
  have hv1 : cfg.min_deg ≤
      (if fabs (tgt - cur) ≤ mkRat 1 10000 then tgt
       else if tgt - cur > 0 then
         (if cur + cfg.ramp_dps * mkRat (now - last : ℕ) 1000 ≥ tgt then tgt
          else cur + cfg.ramp_dps * mkRat (now - last : ℕ) 1000)
       else
         (if cur - cfg.ramp_dps * mkRat (now - last : ℕ) 1000 ≤ tgt then tgt
          else cur - cfg.ramp_dps * mkRat (now - last : ℕ) 1000)) :=
    le_trans (le_min hc1 ht1) p1
  have hv2 :
      (if fabs (tgt - cur) ≤ mkRat 1 10000 then tgt
       else if tgt - cur > 0 then
         (if cur + cfg.ramp_dps * mkRat (now - last : ℕ) 1000 ≥ tgt then tgt
          else cur + cfg.ramp_dps * mkRat (now - last : ℕ) 1000)
       else
         (if cur - cfg.ramp_dps * mkRat (now - last : ℕ) 1000 ≤ tgt then tgt
          else cur - cfg.ramp_dps * mkRat (now - last : ℕ) 1000)) ≤ cfg.max_deg :=
    le_trans p2 (max_le hc2 ht2)
  unfold tickServo
  simp only [Bool.not_true, hdt]
  rw [if_neg (by simp), if_neg (by omega), if_neg (not_le.mpr hr)]
  simp only [hauto, Bool.false_eq_true, if_false]
  rw [clampDeg_id cfg _ hv1 hv2]
  simp only [updateAtTargetFlags_current, updateAtTargetFlags_target,
    updateAtTargetFlags_attached, updateAtTargetFlags_last]
  exact ⟨trivial, trivial, trivial, p1, p2, p3, p4⟩

theorem mkRat_nat_nonneg (x d : ℕ) : 0 ≤ mkRat (x : ℕ) d := by
  rw [Rat.mkRat_eq_div]
  positivity

theorem mkRat_nat_add (x y d : ℕ) :
    mkRat (x : ℕ) d + mkRat (y : ℕ) d = mkRat (x + y : ℕ) d := by
  rw [Rat.mkRat_eq_div, Rat.mkRat_eq_div, Rat.mkRat_eq_div, div_add_div_same]
  norm_cast

theorem max0_step (e0 e1 e2 a b : ℚ) (hb : 0 ≤ b) (he1 : 0 ≤ e1)
    (h1 : e1 ≤ max 0 (e0 - a)) (h2 : e2 ≤ max 0 (e1 - b)) :
    e2 ≤ max 0 (e0 - (a + b)) := by
  rcases le_total (e0 - a) 0 with h | h
  · have h10 : e1 = 0 := le_antisymm (le_trans h1 (by rw [max_eq_left h])) he1
    rw [h10] at h2
    have h20 : e2 ≤ 0 := le_trans h2 (by rw [max_eq_left (by linarith)])
    exact le_trans h20 (le_max_left _ _)
  · rw [max_eq_right h] at h1
    exact le_trans h2 (max_le_max le_rfl (by linarith))

theorem chain_le_getLastD (t : Nat) (ts : List Nat) (h : List.Chain (· < ·) t ts) :
    t ≤ ts.getLastD t := by
  induction ts generalizing t with
  | nil => simp [List.getLastD]
  | cons u us ih =>
    obtain ⟨htu, h2⟩ := List.chain_cons.mp h
    rw [List.getLastD_cons]
    exact le_trans htu.le (ih u h2)

theorem runServo_converge (cfg : ServoConfig) (ts : List Nat) :
    ∀ s : ServoState, s.is_attached = true → cfg.auto_detach_on_closed = false →
      0 < cfg.ramp_dps → cfg.min_deg ≤ cfg.max_deg →
      cfg.min_deg ≤ s.current_deg → s.current_deg ≤ cfg.max_deg →
      cfg.min_deg ≤ s.target_deg → s.target_deg ≤ cfg.max_deg →
      List.Chain (· < ·) s.last_update_ms ts → (∀ t ∈ ts, t < U32) →
      (runServo cfg s ts).is_attached = true ∧
      (runServo cfg s ts).target_deg = s.target_deg ∧
      (runServo cfg s ts).last_update_ms = ts.getLastD s.last_update_ms ∧
      min s.current_deg s.target_deg ≤ (runServo cfg s ts).current_deg ∧
      (runServo cfg s ts).current_deg ≤ max s.current_deg s.target_deg ∧
      |s.target_deg - (runServo cfg s ts).current_deg| ≤
        max 0 (|s.target_deg - s.current_deg| -
          cfg.ramp_dps * mkRat (ts.getLastD s.last_update_ms - s.last_update_ms : ℕ) 1000) := by
  induction ts with
  | nil =>
    intro s hat _ _ _ _ _ _ _ _ _
    refine ⟨hat, rfl, rfl, min_le_left _ _, le_max_left _ _, ?_⟩
    have : (mkRat (s.last_update_ms - s.last_update_ms : ℕ) 1000 : ℚ) = 0 := by
      rw [Nat.sub_self]
      rw [Rat.mkRat_eq_div]
      norm_num
    rw [List.getLastD, this, mul_zero, sub_zero]
    exact le_max_right _ _
  | cons t ts ih =>
    intro s hat hauto hr hmm hc1 hc2 ht1 ht2 hchain hu
    obtain ⟨hlt, hchain2⟩ := List.chain_cons.mp hchain
    have hnow : t < U32 := hu t (List.mem_cons_self t ts)
    obtain ⟨q1, q2, q3, q4, q5, q6, q7⟩ :=
      tickServo_step cfg s t hat hauto hr hmm hc1 hc2 ht1 ht2 hlt hnow
    have hrun : runServo cfg s (t :: ts) = runServo cfg (tickServo cfg t s) ts := rfl
    have hb1 : cfg.min_deg ≤ (tickServo cfg t s).current_deg := le_trans (le_min hc1 ht1) q4
    have hb2 : (tickServo cfg t s).current_deg ≤ cfg.max_deg := le_trans q5 (max_le hc2 ht2)
    have hb3 : cfg.min_deg ≤ (tickServo cfg t s).target_deg := q2 ▸ ht1
    have hb4 : (tickServo cfg t s).target_deg ≤ cfg.max_deg := q2 ▸ ht2
    have hchain1 : List.Chain (· < ·) (tickServo cfg t s).last_update_ms ts := by
      rw [q3]; exact hchain2
    obtain ⟨r1, r2, r3, r4, r5, r6⟩ :=
      ih (tickServo cfg t s) q1 hauto hr hmm hb1 hb2 hb3 hb4 hchain1
        (fun u hu2 => hu u (List.mem_cons_of_mem _ hu2))
    rw [hrun]
    have hlast : t ≤ ts.getLastD t := chain_le_getLastD t ts hchain2
    refine ⟨r1, r2.trans q2, ?_, ?_, ?_, ?_⟩
    · rw [r3, q3, List.getLastD_cons]
    · exact le_trans (le_min q4 (q2 ▸ min_le_right s.current_deg s.target_deg)) r4
    · exact le_trans r5 (max_le q5 (q2 ▸ le_max_right s.current_deg s.target_deg))
    · rw [q2, q3] at r6
      rw [List.getLastD_cons]
      have hsum : cfg.ramp_dps * mkRat (t - s.last_update_ms : ℕ) 1000 +
          cfg.ramp_dps * mkRat (ts.getLastD t - t : ℕ) 1000 =
          cfg.ramp_dps * mkRat (ts.getLastD t - s.last_update_ms : ℕ) 1000 := by
        rw [← mul_add, mkRat_nat_add]
        rw [show (t - s.last_update_ms) + (ts.getLastD t - t) =
          ts.getLastD t - s.last_update_ms by omega]
      have hcomp := max0_step |s.target_deg - s.current_deg|
        |s.target_deg - (tickServo cfg t s).current_deg|
        |s.target_deg - (runServo cfg (tickServo cfg t s) ts).current_deg|
        (cfg.ramp_dps * mkRat (t - s.last_update_ms : ℕ) 1000)
        (cfg.ramp_dps * mkRat (ts.getLastD t - t : ℕ) 1000)
        (mul_nonneg hr.le (mkRat_nat_nonneg _ _)) (abs_nonneg _) q6 r6
      rwa [hsum] at hcomp


/-- `setTargetDeg` either ignores the call (sub-epsilon change) or
stores the clamped angle as the new target. -/
theorem setTargetDeg_target (cfg : ServoConfig) (d : ℚ) (now : Nat) (s : ServoState) :
    (setTargetDeg cfg d now s).target_deg = s.target_deg ∨
    (setTargetDeg cfg d now s).target_deg = clampDeg cfg d := by
  unfold setTargetDeg
  by_cases h1 : fabs (clampDeg cfg d - s.target_deg) < mkRat 1 1000
  · rw [if_pos h1]; exact Or.inl rfl
  · rw [if_neg h1]
    by_cases h2 : cfg.ramp_dps ≤ 0
    · rw [if_pos h2]
      right
      rw [updateAtTargetFlags_target]
      unfold attachServo
      split_ifs <;> rfl
    · rw [if_neg h2]
      right
      unfold attachServo
      split_ifs <;> rfl

/-- While the stored target is farther than the deadband from the rest
angle, a tick never auto-releases and never changes the target. -/
theorem tickServo_no_release (cfg : ServoConfig) (now : Nat) (s : ServoState)
    (hfar : cfg.deadband_deg < |s.target_deg - cfg.closed_deg|) :
    (tickServo cfg now s).is_attached = s.is_attached ∧
    (tickServo cfg now s).target_deg = s.target_deg := by
  by_cases h1 : s.is_attached = true
  · unfold tickServo
    dsimp only
    rw [if_neg (by simp [h1])]
    by_cases h2 : usub32 now s.last_update_ms = 0
    · rw [if_pos h2]; exact ⟨rfl, rfl⟩
    · rw [if_neg h2]
      by_cases h3 : cfg.ramp_dps ≤ 0
      · rw [if_pos h3]
        exact ⟨updateAtTargetFlags_attached _ _ _, updateAtTargetFlags_target _ _ _⟩
      · rw [if_neg h3]
        by_cases h4 : cfg.auto_detach_on_closed = true
        · rw [if_pos h4]
          rw [if_neg ?hcond]
          case hcond =>
            intro hcond
            have hc := hcond.1
            rw [fabs_eq_abs, updateAtTargetFlags_target] at hc
            dsimp only at hc
            linarith
          exact ⟨updateAtTargetFlags_attached _ _ _, updateAtTargetFlags_target _ _ _⟩
        · rw [if_neg h4]
          exact ⟨updateAtTargetFlags_attached _ _ _, updateAtTargetFlags_target _ _ _⟩
  · unfold tickServo
    rw [if_pos (by simp [h1])]
    exact ⟨rfl, rfl⟩

/-- `tickServo_no_release` iterated over any tick sequence. -/
theorem runServo_no_release (cfg : ServoConfig) (ts : List Nat) :
    ∀ s : ServoState, cfg.deadband_deg < |s.target_deg - cfg.closed_deg| →
      (runServo cfg s ts).is_attached = s.is_attached ∧
      (runServo cfg s ts).target_deg = s.target_deg := by
  induction ts with
  | nil => exact fun s _ => ⟨rfl, rfl⟩
  | cons t ts ih =>
    intro s hfar
    obtain ⟨a1, a2⟩ := tickServo_no_release cfg t s hfar
    obtain ⟨b1, b2⟩ := ih (tickServo cfg t s) (by rw [a2]; exact hfar)
    exact ⟨b1.trans a1, b2.trans a2⟩

/-- An attached actuator resting exactly on a target within deadband of
the rest angle, with the at-target timer running and the settle time
elapsed, is released by the next tick (positive ramp rate). -/
theorem tickServo_release (cfg : ServoConfig) (s : ServoState) (now : Nat)
    (hauto : cfg.auto_detach_on_closed = true) (hr : 0 < cfg.ramp_dps)
    (hdb : 0 ≤ cfg.deadband_deg)
    (ht1 : cfg.min_deg ≤ s.target_deg) (ht2 : s.target_deg ≤ cfg.max_deg)
    (hat : s.is_attached = true) (hatg : s.at_target = true)
    (hcur : s.current_deg = s.target_deg)
    (hsz : s.at_target_since_ms ≠ 0)
    (hclose : |s.target_deg - cfg.closed_deg| ≤ cfg.deadband_deg)
    (hlt : s.last_update_ms < now) (hnow : now < U32)
    (hsle : s.at_target_since_ms ≤ now)
    (hsettle : cfg.settle_ms ≤ now - s.at_target_since_ms) :
    (tickServo cfg now s).is_attached = false := by
  have hdt : usub32 now s.last_update_ms = now - s.last_update_ms :=
    usub32_eq_sub _ _ hlt.le hnow
  have hs : usub32 now s.at_target_since_ms = now - s.at_target_since_ms :=
    usub32_eq_sub _ _ hsle hnow
  have heps : (0 : ℚ) ≤ mkRat 1 10000 := by rw [Rat.mkRat_eq_div]; norm_num
  obtain ⟨tgt, cur, att, atg, last, since⟩ := s
  dsimp only at hat hatg hcur hsz hclose hlt hsle hsettle hdt hs ht1 ht2 ⊢
  subst hat hatg
  unfold tickServo
  dsimp only
  rw [if_neg (by simp)]
  rw [hdt]
  rw [if_neg (by omega)]
  rw [if_neg (not_le.mpr hr)]
  rw [hcur]
  simp only [fabs_eq_abs, sub_self, abs_zero]
  rw [if_pos heps, clampDeg_id cfg tgt ht1 ht2]
  unfold updateAtTargetFlags
  dsimp only
  simp only [fabs_eq_abs, sub_self, abs_zero]
  rw [if_pos hdb]
  simp only [not_true, if_false]
  rw [if_pos hauto]
  rw [if_pos ⟨hclose, by trivial, hsz, by rw [hs]; exact hsettle⟩]

/-- C5 (corrected): with auto-release disabled (amendment — an enabled
auto-release can detach the actuator short of the target, see the
counterexample) and a positive ramp rate, every stored target is the
clamped commanded angle (first clause); each tick moves the current
angle monotonically toward the target without overshoot, staying inside
`[min_deg, max_deg]`, by at most `rate × elapsed` *or the 10⁻⁴-degree
snap tolerance, whichever is larger* (amendment — the snap branch can
exceed the rate bound, see the counterexample); and over any strictly
increasing tick sequence the remaining error shrinks by at least
`rate × elapsed`, so once the sequence spans at least
`1000·|target − start|/rate` milliseconds the target is reached
exactly (finite-tick convergence). -/
theorem C5_ramp_convergence :
    (∀ (cfg : ServoConfig) (d : ℚ) (now : Nat) (s : ServoState),
      cfg.min_deg ≤ cfg.max_deg →
      (cfg.min_deg ≤ clampDeg cfg d ∧ clampDeg cfg d ≤ cfg.max_deg) ∧
      ((setTargetDeg cfg d now s).target_deg = s.target_deg ∨
        (setTargetDeg cfg d now s).target_deg = clampDeg cfg d)) ∧
    (∀ (cfg : ServoConfig) (s : ServoState) (now : Nat),
      s.is_attached = true → cfg.auto_detach_on_closed = false → 0 < cfg.ramp_dps →
      cfg.min_deg ≤ cfg.max_deg →
      cfg.min_deg ≤ s.current_deg → s.current_deg ≤ cfg.max_deg →
      cfg.min_deg ≤ s.target_deg → s.target_deg ≤ cfg.max_deg →
      s.last_update_ms < now → now < U32 →
      min s.current_deg s.target_deg ≤ (tickServo cfg now s).current_deg ∧
      (tickServo cfg now s).current_deg ≤ max s.current_deg s.target_deg ∧
      cfg.min_deg ≤ (tickServo cfg now s).current_deg ∧
      (tickServo cfg now s).current_deg ≤ cfg.max_deg ∧
      |s.target_deg - (tickServo cfg now s).current_deg| ≤
        max 0 (|s.target_deg - s.current_deg| -
          cfg.ramp_dps * mkRat (now - s.last_update_ms : ℕ) 1000) ∧
      |(tickServo cfg now s).current_deg - s.current_deg| ≤
        max (cfg.ramp_dps * mkRat (now - s.last_update_ms : ℕ) 1000) (mkRat 1 10000)) ∧
    (∀ (cfg : ServoConfig) (s : ServoState) (ts : List Nat),
      s.is_attached = true → cfg.auto_detach_on_closed = false → 0 < cfg.ramp_dps →
      cfg.min_deg ≤ cfg.max_deg →
      cfg.min_deg ≤ s.current_deg → s.current_deg ≤ cfg.max_deg →
      cfg.min_deg ≤ s.target_deg → s.target_deg ≤ cfg.max_deg →
      List.Chain (· < ·) s.last_update_ms ts → (∀ t ∈ ts, t < U32) →
      (runServo cfg s ts).target_deg = s.target_deg ∧
      min s.current_deg s.target_deg ≤ (runServo cfg s ts).current_deg ∧
      (runServo cfg s ts).current_deg ≤ max s.current_deg s.target_deg ∧
      cfg.min_deg ≤ (runServo cfg s ts).current_deg ∧
      (runServo cfg s ts).current_deg ≤ cfg.max_deg ∧
      |s.target_deg - (runServo cfg s ts).current_deg| ≤
        max 0 (|s.target_deg - s.current_deg| -
          cfg.ramp_dps * mkRat (ts.getLastD s.last_update_ms - s.last_update_ms : ℕ) 1000) ∧
      (|s.target_deg - s.current_deg| ≤
          cfg.ramp_dps * mkRat (ts.getLastD s.last_update_ms - s.last_update_ms : ℕ) 1000 →
        (runServo cfg s ts).current_deg = s.target_deg)) := by
  refine ⟨?_, ?_, ?_⟩
  · intro cfg d now s hmm
    exact ⟨clampDeg_mem cfg d hmm, setTargetDeg_target cfg d now s⟩
  · intro cfg s now hat hauto hr hmm hc1 hc2 ht1 ht2 hlt hnow
    obtain ⟨_, _, _, q4, q5, q6, q7⟩ :=
      tickServo_step cfg s now hat hauto hr hmm hc1 hc2 ht1 ht2 hlt hnow
    exact ⟨q4, q5, le_trans (le_min hc1 ht1) q4, le_trans q5 (max_le hc2 ht2), q6, q7⟩
  · intro cfg s ts hat hauto hr hmm hc1 hc2 ht1 ht2 hchain hu
    obtain ⟨_, r2, _, r4, r5, r6⟩ :=
      runServo_converge cfg ts s hat hauto hr hmm hc1 hc2 ht1 ht2 hchain hu
    refine ⟨r2, r4, r5, le_trans (le_min hc1 ht1) r4, le_trans r5 (max_le hc2 ht2), r6, ?_⟩
    intro hspan
    have h0 : |s.target_deg - (runServo cfg s ts).current_deg| ≤ 0 :=
      le_trans r6 (by rw [max_eq_left (by linarith)])
    have h1 : s.target_deg - (runServo cfg s ts).current_deg = 0 :=
      abs_eq_zero.mp (le_antisymm h0 (abs_nonneg _))
    linarith [h1]

set_option maxRecDepth 16000 in
/-- C5 counterexample: (a) with ramp rate 0.05°/s a 1 ms tick may move
the current angle by `8·10⁻⁵`° — more than `rate × elapsed = 5·10⁻⁵`° —
because an error below the `10⁻⁴` snap threshold is jumped in one step;
(b) with auto-release enabled (rest 0°, deadband 2°, settle 100 ms,
rate 0.5°/s), a start at 10° commanded to 0° over ticks spanning
30 s ≥ `1000·|0−10|/rate = 20 s` ends *detached at 1.5°*, never
reaching the target — refuting unconditional finite-tick convergence. -/
theorem C5_counterexample :
    |(tickServo (mkServoConfig 0 100 (mkRat 1 20) 2 1000 false 0) 1
        { target_deg := mkRat 8 100000, current_deg := 0, is_attached := true,
          at_target := false, last_update_ms := 0, at_target_since_ms := 0 }).current_deg -
      (0 : ℚ)| >
      (mkServoConfig 0 100 (mkRat 1 20) 2 1000 false 0).ramp_dps * mkRat 1 1000 ∧
    (runServo (mkServoConfig 0 100 (mkRat 1 2) 2 100 true 0)
        { target_deg := 0, current_deg := 10, is_attached := true, at_target := false,
          last_update_ms := 0, at_target_since_ms := 0 }
        ((List.range 30).map (fun i => 1000 * (i + 1)))).is_attached = false ∧
    (runServo (mkServoConfig 0 100 (mkRat 1 2) 2 100 true 0)
        { target_deg := 0, current_deg := 10, is_attached := true, at_target := false,
          last_update_ms := 0, at_target_since_ms := 0 }
        ((List.range 30).map (fun i => 1000 * (i + 1)))).current_deg = mkRat 3 2 ∧
    (runServo (mkServoConfig 0 100 (mkRat 1 2) 2 100 true 0)
        { target_deg := 0, current_deg := 10, is_attached := true, at_target := false,
          last_update_ms := 0, at_target_since_ms := 0 }
        ((List.range 30).map (fun i => 1000 * (i + 1)))).target_deg = 0 ∧
    |(0 : ℚ) - 10| ≤
      (mkServoConfig 0 100 (mkRat 1 2) 2 100 true 0).ramp_dps *
        mkRat ((((List.range 30).map (fun i => 1000 * (i + 1))).getLastD 0 - 0 : ℕ)) 1000 := by
  refine ⟨by decide, by decide, by decide, by decide, by decide⟩

/-- Witness for C5: the lid geometry with auto-release disabled; a ramp
from 0° toward 10° at 25°/s over ticks at 200/400/600 ms reaches the
target exactly (the span bound `25·0.6 = 15 ≥ 10` holds). -/
theorem C5_ramp_convergence_witness :
    ((mkServoConfig 0 100 25 2 1000 false 0).min_deg ≤
        clampDeg (mkServoConfig 0 100 25 2 1000 false 0) 120 ∧
      clampDeg (mkServoConfig 0 100 25 2 1000 false 0) 120 ≤
        (mkServoConfig 0 100 25 2 1000 false 0).max_deg) ∧
    (runServo (mkServoConfig 0 100 25 2 1000 false 0)
        { target_deg := 10, current_deg := 0, is_attached := true, at_target := false,
          last_update_ms := 0, at_target_since_ms := 0 }
        [200, 400, 600]).current_deg =
      ({ target_deg := 10, current_deg := 0, is_attached := true, at_target := false,
          last_update_ms := 0, at_target_since_ms := 0 } : ServoState).target_deg :=
  ⟨(C5_ramp_convergence.1 (mkServoConfig 0 100 25 2 1000 false 0) 120 0 {} (by decide)).1,
   (C5_ramp_convergence.2.2 (mkServoConfig 0 100 25 2 1000 false 0)
      { target_deg := 10, current_deg := 0, is_attached := true, at_target := false,
        last_update_ms := 0, at_target_since_ms := 0 }
      [200, 400, 600] rfl rfl (by decide) (by decide) (by decide) (by decide) (by decide)
      (by decide) (by norm_num [List.chain_cons, U32]) (by decide)).2.2.2.2.2.2
      (by rw [← fabs_eq_abs]; decide)⟩

/-- C6 (corrected): auto-release fires for any stored target within the
*deadband* of the rest angle — not only for targets exactly equal to it
(amendment; see counterexample (a)) — and requires a positive ramp rate
(amendment; with the rate 0 the tick returns before the release check,
see counterexample (b)).  First clause: a settled actuator (at its
target, within deadband of the rest angle, timer running, settle time
elapsed) is detached by the next tick.  Second clause: with the target
farther than the deadband from the rest angle, no tick sequence ever
releases the actuator or changes its target. -/
theorem C6_auto_release :
    (∀ (cfg : ServoConfig) (s : ServoState) (now : Nat),
      cfg.auto_detach_on_closed = true → 0 < cfg.ramp_dps → 0 ≤ cfg.deadband_deg →
      cfg.min_deg ≤ s.target_deg → s.target_deg ≤ cfg.max_deg →
      s.is_attached = true → s.at_target = true → s.current_deg = s.target_deg →
      s.at_target_since_ms ≠ 0 →
      |s.target_deg - cfg.closed_deg| ≤ cfg.deadband_deg →
      s.last_update_ms < now → now < U32 → s.at_target_since_ms ≤ now →
      cfg.settle_ms ≤ now - s.at_target_since_ms →
      (tickServo cfg now s).is_attached = false) ∧
    (∀ (cfg : ServoConfig) (s : ServoState) (ts : List Nat),
      cfg.deadband_deg < |s.target_deg - cfg.closed_deg| → s.is_attached = true →
      (runServo cfg s ts).is_attached = true ∧
      (runServo cfg s ts).target_deg = s.target_deg) := by
  constructor
  · intro cfg s now hauto hr hdb ht1 ht2 hat hatg hcur hsz hclose hlt hnow hsle hsettle
    exact tickServo_release cfg s now hauto hr hdb ht1 ht2 hat hatg hcur hsz hclose hlt
      hnow hsle hsettle
  · intro cfg s ts hfar hat
    obtain ⟨a1, a2⟩ := runServo_no_release cfg ts s hfar
    exact ⟨a1.trans hat, a2⟩

/-- C6 counterexample: (a) the lid servo (rest 0°, deadband 2°), taken
to the target 1° ≠ 0° and held there, is *released* at the tick where
the settle time has elapsed — refuting "any target other than the rest
angle must stay attached"; (b) a zero-ramp-rate actuator snapped to the
rest target itself and held far past the settle time stays *attached*,
because the tick returns before the release check — refuting
unconditional release at the rest target. -/
theorem C6_counterexample :
    ((1 : ℚ) ≠ LID_CLOSED_DEG) ∧
    (runServo lidServoConfig
        (setTargetDeg lidServoConfig 1 0 (beginServo lidServoConfig 0 3))
        [100, 1100]).is_attached = false ∧
    (runServo lidServoConfig
        (setTargetDeg lidServoConfig 1 0 (beginServo lidServoConfig 0 3))
        [100, 1100]).target_deg = 1 ∧
    (runServo (mkServoConfig 0 100 0 2 1000 true 0)
        (setTargetDeg (mkServoConfig 0 100 0 2 1000 true 0) 0 5
          (beginServo (mkServoConfig 0 100 0 2 1000 true 0) 0 50))
        [2000, 4000]).is_attached = true ∧
    (runServo (mkServoConfig 0 100 0 2 1000 true 0)
        (setTargetDeg (mkServoConfig 0 100 0 2 1000 true 0) 0 5
          (beginServo (mkServoConfig 0 100 0 2 1000 true 0) 0 50))
        [2000, 4000]).target_deg = (mkServoConfig 0 100 0 2 1000 true 0).closed_deg := by
  refine ⟨by decide, by decide, by decide, by decide, by decide⟩

/-- Witness for C6: the lid servo settled exactly on its 0° rest target
since 10 ms detaches at the 1200 ms tick; the sweep servo holding a 50°
target (far from its 15° rest angle) stays attached over further
ticks. -/
theorem C6_auto_release_witness :
    (tickServo lidServoConfig 1200
        { target_deg := 0, current_deg := 0, is_attached := true, at_target := true,
          last_update_ms := 10, at_target_since_ms := 10 }).is_attached = false ∧
    (runServo sweepServoConfig
        { target_deg := 50, current_deg := 20, is_attached := true, at_target := false,
          last_update_ms := 0, at_target_since_ms := 0 }
        [100, 200]).is_attached = true :=
  ⟨C6_auto_release.1 lidServoConfig
      { target_deg := 0, current_deg := 0, is_attached := true, at_target := true,
        last_update_ms := 10, at_target_since_ms := 10 }
      1200 rfl (by decide) (by decide) (by decide) (by decide) rfl rfl rfl
      (by decide) (by decide) (by decide) (by decide) (by decide) (by decide),
   (C6_auto_release.2 sweepServoConfig
      { target_deg := 50, current_deg := 20, is_attached := true, at_target := false,
        last_update_ms := 0, at_target_since_ms := 0 }
      [100, 200] (by decide) rfl).1⟩

end APWCR
